import Mathlib

/-!
Shallow embedding of the RunGraph (StravaGraph) activity-heatmap pipeline:
the daily-bucket aggregator (internal/processor), the percentile intensity
classifier, the week-aligned grid layout and label generation, the color
themes, and the SVG generator (internal/svg), together with the
configuration date-range logic (internal/config).

Modelling conventions:
  - Go float64 is modelled as ℚ (exact arithmetic).
  - Go time.Time is modelled at calendar-day granularity: an absolute
    instant is an ℤ of seconds since the Unix epoch, and a calendar date
    is an ℤ day index (day 0 = 1970-01-01, a Thursday).  A time.Location
    is modelled as a fixed UTC offset in seconds.
  - Go maps that the code only reads back by key are modelled as
    functions into Option; maps whose contents are iterated are modelled
    as insertion-ordered association lists.
  - Go int is ℤ (or ℕ for quantities that are only ever incremented);
    Go integer division/modulus (truncation toward zero) on the
    non-negative operands that occur here is written with goDiv / goMod.
-/

namespace RunGraph

/-- Go integer division: truncation toward zero (all uses in this code are
on non-negative operands, where every division convention agrees). -/
def goDiv (a b : ℤ) : ℤ := Int.tdiv a b

/-- Go integer remainder, matching goDiv. -/
def goMod (a b : ℤ) : ℤ := Int.tmod a b

/-! ### Decimal formatting (fmt %d) and parsing (strconv.Atoi) -/

/-- The decimal digit character for n < 10. -/
def digitChar (n : ℕ) : Char := Char.ofNat (48 + n)

/-- Decimal digit characters of a natural number, most significant first. -/
def natChars (n : ℕ) : List Char :=
  if h : n < 10 then [digitChar n]
  else natChars (n / 10) ++ [digitChar (n % 10)]
decreasing_by exact Nat.div_lt_self (by omega) (by omega)

/-- Decimal rendering of a natural number (fmt %d on a non-negative int). -/
def natStr (n : ℕ) : String := ⟨natChars n⟩

/-- Decimal rendering of an integer (fmt %d). -/
def intStr (i : ℤ) : String := if i < 0 then "-" ++ natStr (-i).toNat else natStr i.toNat

/-- Numeric value of a decimal digit character. -/
def digitVal (c : Char) : ℕ := c.toNat - 48

/-- Whether a character is a decimal digit. -/
def isDigitCh (c : Char) : Bool := 48 ≤ c.toNat && c.toNat ≤ 57

/-- Value of a list of decimal digit characters, most significant first. -/
def digitsVal (cs : List Char) : ℕ := cs.foldl (fun a c => 10 * a + digitVal c) 0

/-- strconv.Atoi restricted to unsigned decimal strings, with errors mapped
to 0 (the code that uses it discards the error and Go leaves the variable
at its zero value). -/
def atoiNat (s : String) : ℕ :=
  if s.data ≠ [] && s.data.all isDigitCh then digitsVal s.data else 0

/-- Two-digit zero-padded decimal (the 01 / 02 components of Go date formats). -/
def pad2 (n : ℕ) : String := if n < 10 then "0" ++ natStr n else natStr n

/-- Four-digit zero-padded decimal (the 2006 component of Go date formats). -/
def pad4 (n : ℕ) : String :=
  if n < 10 then "000" ++ natStr n
  else if n < 100 then "00" ++ natStr n
  else if n < 1000 then "0" ++ natStr n
  else natStr n

/-! ### Civil (proleptic Gregorian) calendar on day indexes -/

/-- Calendar date (year, month 1..12, day 1..31) of a day index
(day 0 = 1970-01-01).  Standard era-based conversion. -/
def civilFromDays (z : ℤ) : ℤ × ℕ × ℕ :=
  let zs := (z + 719468).toNat
  let era := zs / 146097
  let doe := zs % 146097
  let yoe := (doe - doe / 1460 + doe / 36524 - doe / 146096) / 365
  let doy := doe - (365 * yoe + yoe / 4 - yoe / 100)
  let mp := (5 * doy + 2) / 153
  let d := doy - (153 * mp + 2) / 5 + 1
  let m := if mp < 10 then mp + 3 else mp - 9
  ((era : ℤ) * 400 + yoe + (if m ≤ 2 then 1 else 0), m, d)

/-- Day index of a calendar date; linear in the day component, so that
out-of-range day components normalize exactly as Go's time.Date does. -/
def daysFromCivil (y : ℤ) (m d : ℤ) : ℤ :=
  let y' := y - (if m ≤ 2 then 1 else 0)
  let era := Int.fdiv y' 400
  let yoe := (y' - era * 400).toNat
  let mp := ((Int.fmod (m + 9) 12)).toNat
  let doy : ℤ := ((153 * mp + 2) / 5 : ℕ) + d - 1
  let doe : ℤ := (yoe * 365 + yoe / 4 - yoe / 100 : ℕ) + doy
  era * 146097 + doe - 719468

/-- Year of a day index. -/
def yearOf (z : ℤ) : ℤ := (civilFromDays z).1

/-- Month (1..12) of a day index. -/
def monthOf (z : ℤ) : ℕ := (civilFromDays z).2.1

/-- Day of month (1..31) of a day index. -/
def domOf (z : ℤ) : ℕ := (civilFromDays z).2.2

/-- Go time.Weekday of a day index: Sunday = 0 .. Saturday = 6
(day 0 = 1970-01-01 was a Thursday = 4). -/
def weekdayOf (z : ℤ) : ℤ := (z + 4) % 7

/-- Three-letter month abbreviations, indexed 1..12 (Go Format "Jan"); index
0 is the unused empty slot, as in the monthNames table of writeMonthLabels. -/
def monthNames3 : List String :=
  ["", "Jan", "Feb", "Mar", "Apr", "May", "Jun", "Jul", "Aug", "Sep", "Oct", "Nov", "Dec"]

/-- Full month names, indexed 1..12 (Go Format "January"). -/
def monthNamesFull : List String :=
  ["", "January", "February", "March", "April", "May", "June", "July", "August",
   "September", "October", "November", "December"]

/-- Go Format "Jan" of a day index. -/
def fmtMonAbbrev (z : ℤ) : String := monthNames3.getD (monthOf z) ""

/-- Go Format "2006-01-02" of a day index. -/
def fmtISO (z : ℤ) : String :=
  pad4 (yearOf z).toNat ++ "-" ++ pad2 (monthOf z) ++ "-" ++ pad2 (domOf z)

/-- Go Format "Jan 2" of a day index. -/
def fmtMonDay (z : ℤ) : String :=
  fmtMonAbbrev z ++ " " ++ natStr (domOf z)

/-- Go Format "Jan 2, 2006" of a day index. -/
def fmtDateShort (z : ℤ) : String :=
  fmtMonAbbrev z ++ " " ++ natStr (domOf z) ++ ", " ++ pad4 (yearOf z).toNat

/-- Go Format "January 2, 2006" of a day index. -/
def fmtDateLong (z : ℤ) : String :=
  monthNamesFull.getD (monthOf z) "" ++ " " ++ natStr (domOf z) ++ ", " ++ pad4 (yearOf z).toNat

/-- Parse a strict "2006-01-02" date string to a day index
(Go time.ParseInLocation with that layout, at day granularity). -/
def parseDateISO (s : String) : Option ℤ :=
  match s.data with
  | [y1, y2, y3, y4, '-', m1, m2, '-', d1, d2] =>
    if [y1, y2, y3, y4, m1, m2, d1, d2].all isDigitCh then
      let y := digitsVal [y1, y2, y3, y4]
      let m := digitsVal [m1, m2]
      let d := digitsVal [d1, d2]
      if 1 ≤ m ∧ m ≤ 12 ∧ 1 ≤ d ∧ d ≤ 31 then some (daysFromCivil y m d) else none
    else none
  | _ => none

/-! ### Fixed-point formatting of ℚ (fmt %.1f and %.0f on float64) -/

/-- Round a non-negative rational to the nearest integer, half away from
zero (the decimal value printed by fmt for the floats that occur here). -/
def roundQ (q : ℚ) : ℤ := Int.floor (q + 1 / 2)

/-- fmt %.0f of a non-negative float value. -/
def fmtQ0 (q : ℚ) : String := intStr (roundQ q)

/-- fmt %.1f of a non-negative float value. -/
def fmtQ1 (q : ℚ) : String :=
  let n := roundQ (q * 10)
  intStr (goDiv n 10) ++ "." ++ natStr (goMod n 10).toNat

/-! ### Data model (internal/strava types.go) -/

/-- strava.SummaryActivity: one raw activity record from the API.
StartDate is an absolute instant in seconds since the epoch. -/
structure SummaryActivity where
  id : ℤ
  name : String
  distance : ℚ
  movingTime : ℤ
  totalElevGain : ℚ
  type : String
  startDate : ℤ
  averageHeartrate : ℚ
  maxHeartrate : ℚ
  prCount : ℤ
deriving DecidableEq

/-- strava.DailyActivity: aggregated activities for a single local calendar
date.  types is the insertion-ordered association list modelling the
map[string]int of per-type counts. -/
structure DailyActivity where
  date : ℤ
  count : ℕ
  totalDistance : ℚ
  totalDuration : ℤ
  totalElevation : ℚ
  activities : List ℤ
  maxHeartRate : ℚ
  avgHeartRate : ℚ
  hasPR : Bool
  types : List (String × ℕ)
deriving DecidableEq

/-- strava.HeatmapIntensity. -/
inductive HeatmapIntensity where
  | None
  | Low
  | Medium
  | High
  | VeryHigh
deriving DecidableEq, Repr

/-- The integer value of a HeatmapIntensity (Go iota), as printed by the
intensity-%d class names. -/
def HeatmapIntensity.toInt : HeatmapIntensity → ℕ
  | .None => 0
  | .Low => 1
  | .Medium => 2
  | .High => 3
  | .VeryHigh => 4

/-- strava.ActivityStats (the overall statistics summary). -/
structure ActivityStats where
  totalActivities : ℕ
  totalDistance : ℚ
  totalDuration : ℤ
  totalElevation : ℚ
  activityTypes : List (String × ℕ)
  prCount : ℕ
  activeDays : ℕ
  longestStreak : ℕ
deriving DecidableEq

/-! ### Configuration (internal/config) -/

/-- config.Config, restricted to the fields the embedded pipeline reads. -/
structure Config where
  activityTypes : List String
  metricType : String
  colorScheme : String
  customColors : List String
  showStats : Bool
  statTypes : List String
  dateRange : String
  customStart : String
  customEnd : String
  cellSize : ℤ
  darkModeSupport : Bool
  darkModeColors : List String
  weekStart : String
  timeZone : String
  debug : Bool

/-- The timezone database consulted by time.LoadLocation: resolves a zone
name to a fixed UTC offset in seconds, or fails.  External to the
repository, so it is a parameter of the embedding. -/
def TzDb : Type := String → Option ℤ

/-- Config.GetTimeZoneLocation: the resolved offset (UTC = 0 as the
fallback) together with the error, if any. -/
def getTimeZoneLocation (c : Config) (tzdb : TzDb) : ℤ × Option String :=
  match tzdb c.timeZone with
  | some off => (off, none)
  | none => (0, some ("invalid timezone: " ++ c.timeZone ++ ", defaulting to UTC"))

/-- Local calendar date (day index) of an absolute instant under a
location offset: time.Time.In followed by Format "2006-01-02". -/
def localDay (off t : ℤ) : ℤ := Int.fdiv (t + off) 86400

/-- Config.GetDateRange at day granularity: start and end day indexes for
the configured date-range mode, given the current instant. -/
def getDateRange (c : Config) (tzdb : TzDb) (now : ℤ) : Except String (ℤ × ℤ) :=
  match getTimeZoneLocation c tzdb with
  | (_, some e) => .error e
  | (off, none) =>
    let today := localDay off now
    match c.dateRange with
    | "1year" =>
      .ok (daysFromCivil (yearOf today - 1) (monthOf today) (domOf today), today)
    | "ytd" => .ok (daysFromCivil (yearOf today) 1 1, today)
    | "all" => .ok (daysFromCivil 2009 1 1, today)
    | "custom" =>
      match parseDateISO c.customStart with
      | none => .error "invalid custom start date"
      | some s =>
        match parseDateISO c.customEnd with
        | none => .error "invalid custom end date"
        | some e => .ok (s, e)
    | other => .error ("invalid date range: " ++ other)

/-! ### Bucket aggregator (internal/processor/aggregator, src/unnamed/part_002) -/

/-- Increment the per-type count map for one activity type
(dailyActivity.Types[activity.Type]++ on the association-list model). -/
def typesIncr (ts : List (String × ℕ)) (t : String) : List (String × ℕ) :=
  match ts with
  | [] => [(t, 1)]
  | (t', n) :: rest => if t' = t then (t', n + 1) :: rest else (t', n) :: typesIncr rest t

/-- Look up an activity type's count (reading the Go map; absent = 0). -/
def typesGet (ts : List (String × ℕ)) (t : String) : ℕ :=
  match ts with
  | [] => 0
  | (t', n) :: rest => if t' = t then n else typesGet rest t

/-- The freshly created daily bucket for a local date (the composite
literal in Aggregate when the date key is new). -/
def freshBucket (d : ℤ) : DailyActivity :=
  { date := d, count := 0, totalDistance := 0, totalDuration := 0, totalElevation := 0,
    activities := [], maxHeartRate := 0, avgHeartRate := 0, hasPR := false, types := [] }

/-- The per-record bucket update of ActivityAggregator.Aggregate: counts,
totals, id list, type count, PR flag, the incremental heart-rate average
(guarded by the zero-average first-sample branch) and the running max
heart rate, in source order (Count is incremented before the heart-rate
average divides by it). -/
def dayStep (b : DailyActivity) (a : SummaryActivity) : DailyActivity :=
  let count' := b.count + 1
  let avg' :=
    if 0 < a.averageHeartrate then
      if b.avgHeartRate = 0 then a.averageHeartrate
      else (b.avgHeartRate * ((count' : ℚ) - 1) + a.averageHeartrate) / (count' : ℚ)
    else b.avgHeartRate
  let max' := if b.maxHeartRate < a.maxHeartrate then a.maxHeartrate else b.maxHeartRate
  { b with
    count := count',
    totalDistance := b.totalDistance + a.distance,
    totalDuration := b.totalDuration + a.movingTime,
    totalElevation := b.totalElevation + a.totalElevGain,
    activities := b.activities ++ [a.id],
    types := typesIncr b.types a.type,
    hasPR := b.hasPR || decide (0 < a.prCount),
    avgHeartRate := avg',
    maxHeartRate := max' }

/-- One iteration of the Aggregate loop on the DailyData map (modelled as a
function from date keys to optional buckets). -/
def mapStep (off : ℤ) (m : ℤ → Option DailyActivity) (a : SummaryActivity) :
    ℤ → Option DailyActivity :=
  let k := localDay off a.startDate
  let b := match m k with
           | some b => b
           | none => freshBucket k
  fun k' => if k' = k then some (dayStep b a) else m k'

/-- ActivityAggregator.Aggregate: fold the per-record update over the
activity list, starting from the empty DailyData map. -/
def aggregate (off : ℤ) (acts : List SummaryActivity) : ℤ → Option DailyActivity :=
  acts.foldl (mapStep off) (fun _ => none)

/-- The empty placeholder bucket GetOrderedDates creates for a date with no
activity. -/
def emptyDay (d : ℤ) : DailyActivity := freshBucket d

/-- ActivityAggregator.GetOrderedDates: one bucket per day index from
startD to endD inclusive (the stored bucket if the date key is present,
an empty placeholder otherwise), sorted by date. -/
def getOrderedDates (m : ℤ → Option DailyActivity) (startD endD : ℤ) : List DailyActivity :=
  let n := (endD - startD + 1).toNat
  let raw := (List.range n).map (fun (i : ℕ) =>
    match m (startD + (i : ℤ)) with
    | some b => b
    | none => emptyDay (startD + (i : ℤ)))
  List.insertionSort (fun b1 b2 => b1.date ≤ b2.date) raw

/-! ### Color themes (internal/svg colors.go, src/unnamed/part_001) -/

/-- svg.ColorTheme. -/
structure ColorTheme where
  name : String
  colors : List String
deriving DecidableEq

/-- svg.GetTheme: theme by name; "custom" validates the palette length and
falls back to the github theme; unknown names fall back to github. -/
def GetTheme (name : String) (customColors : List String) : ColorTheme :=
  match name with
  | "github" =>
    { name := "github",
      colors := ["#ebedf0", "#9be9a8", "#40c463", "#30a14e", "#216e39"] }
  | "strava" =>
    { name := "strava",
      colors := ["#494950", "#ffd4d1", "#ffad9f", "#fc7566", "#e34a33"] }
  | "blue" =>
    { name := "blue",
      colors := ["#ebedf0", "#c0dbf1", "#7ab3e5", "#3282ce", "#0a60b6"] }
  | "purple" =>
    { name := "purple",
      colors := ["#ebedf0", "#d9c6ec", "#b888e0", "#9c4acf", "#7222bc"] }
  | "custom" =>
    if customColors.length = 5 then { name := "custom", colors := customColors }
    else { name := "github",
           colors := ["#ebedf0", "#9be9a8", "#40c463", "#30a14e", "#216e39"] }
  | _ =>
    { name := "github",
      colors := ["#ebedf0", "#9be9a8", "#40c463", "#30a14e", "#216e39"] }

/-- svg.GetDarkModeTheme: the dark variant of a light theme, preferring a
5-entry custom dark palette, then the built-in dark palettes by name, then
the github dark palette. -/
def GetDarkModeTheme (lightTheme : ColorTheme) (customDarkColors : List String) : ColorTheme :=
  if customDarkColors.length = 5 then
    { name := lightTheme.name ++ "-dark", colors := customDarkColors }
  else
    match lightTheme.name with
    | "github" =>
      { name := "github-dark",
        colors := ["#161b22", "#0e4429", "#006d32", "#26a641", "#39d353"] }
    | "strava" =>
      { name := "strava-dark",
        colors := ["#36363c", "#7c2c2a", "#a63b33", "#d64c3b", "#fc7566"] }
    | "blue" =>
      { name := "blue-dark",
        colors := ["#161b22", "#0d2c4a", "#164879", "#2368a9", "#3282ce"] }
    | "purple" =>
      { name := "purple-dark",
        colors := ["#161b22", "#2a184a", "#422873", "#61359c", "#8047c9"] }
    | "custom" =>
      { name := "custom-dark",
        colors := ["#161b22", "#0e4429", "#006d32", "#26a641", "#39d353"] }
    | _ =>
      { name := "github-dark",
        colors := ["#161b22", "#0e4429", "#006d32", "#26a641", "#39d353"] }

/-! ### Intensity classification (internal/svg/heatmap.go calculateIntensity) -/

/-- The metric-value switch of calculateIntensity: the scalar extracted
from a daily bucket for a metric type (the same switch is used both when
collecting the reference values and for the day being classified). -/
def metricValue (metricType : String) (data : DailyActivity) : ℚ :=
  match metricType with
  | "distance" => data.totalDistance
  | "duration" => (data.totalDuration : ℚ)
  | "elevation" => data.totalElevation
  | "heart_rate" => data.avgHeartRate
  | "effort" =>
    if 0 < data.totalDuration then
      (data.totalDistance * (1 + data.totalElevation / 100)) / (data.totalDuration : ℚ)
    else 0
  | _ => (data.count : ℚ)

/-- sort.SearchFloat64s on an ascending-sorted slice: the smallest index
whose element is not less than the probe value. -/
def searchFloat64s (values : List ℚ) (x : ℚ) : ℕ :=
  (values.takeWhile (fun v => decide (v < x))).length

/-- calculateIntensity (internal/svg/heatmap.go): percentile-based tier of
one daily bucket against the whole bucket slice for a metric type. -/
def calculateIntensity (day : DailyActivity) (metricType : String)
    (allActivities : List DailyActivity) : HeatmapIntensity :=
  if day.count = 0 then .None
  else
    let values := ((allActivities.filter (fun data => data.count ≠ 0)).map
      (metricValue metricType)).filter (fun v => decide (0 < v))
    if values.length = 0 then .Low
    else
      let dayValue := metricValue metricType day
      let sorted := List.insertionSort (fun a b => a ≤ b) values
      let pos := searchFloat64s sorted dayValue
      let percentile : ℚ := (pos : ℚ) / (values.length : ℚ)
      if percentile ≤ 1/4 then .Low
      else if percentile ≤ 1/2 then .Medium
      else if percentile ≤ 3/4 then .High
      else .VeryHigh

/-! ### Grid layout (internal/svg/heatmap.go createGrid, generateLabels) -/

/-- svg.HeatmapCell. -/
structure HeatmapCell where
  date : ℤ
  intensity : HeatmapIntensity
  hasPR : Bool
  count : ℕ
  tooltip : String
deriving DecidableEq

/-- createTooltip: the hover text for one day (internal/svg/heatmap.go). -/
def createTooltip (date : ℤ) (activity : Option DailyActivity) : String :=
  match activity with
  | none => "No activities on " ++ fmtDateShort date
  | some a =>
    if a.count = 0 then "No activities on " ++ fmtDateShort date
    else
      let distance := a.totalDistance / 1000
      let hours := goDiv a.totalDuration 3600
      let minutes := goDiv (goMod a.totalDuration 3600) 60
      let base := fmtDateShort date ++ ": " ++ natStr a.count ++ " " ++
        (if a.count = 1 then "activity" else "activities")
      let withDist := if 0 < distance then
          base ++ "\nTotal distance: " ++ fmtQ1 distance ++ " km" else base
      let withTime := if 0 < a.totalDuration then
          (if 0 < hours then
            withDist ++ "\nTotal time: " ++ intStr hours ++ " " ++
              (if hours = 1 then "hour" else "hours") ++ " " ++ intStr minutes ++ " " ++
              (if minutes = 1 then "minute" else "minutes")
          else
            withDist ++ "\nTotal time: " ++ intStr minutes ++ " " ++
              (if minutes = 1 then "minute" else "minutes"))
        else withDist
      let withElev := if 0 < a.totalElevation then
          withTime ++ "\nTotal elevation: " ++ fmtQ0 a.totalElevation ++ " m" else withTime
      if a.hasPR then withElev ++ "\nPersonal Record!" else withElev

/-- HeatmapData.dayOffset: position of a Go weekday within the configured
week (week starting Monday or Sunday). -/
def dayOffset (weekStart : String) (day : ℤ) : ℤ :=
  if weekStart = "Monday" then
    if day = 0 then 6 else day - 1
  else day

/-- The activity map built at the top of createGrid: date key to bucket,
later entries overwriting earlier ones like Go map stores. -/
def activityMapGet (activities : List DailyActivity) (k : ℤ) : Option DailyActivity :=
  match activities with
  | [] => none
  | a :: rest =>
    match activityMapGet rest k with
    | some b => some b
    | none => if a.date = k then some a else none

/-- The cell createGrid constructs for one grid date. -/
def mkCell (activities : List DailyActivity) (metricType : String) (d : ℤ) : HeatmapCell :=
  let activity := activityMapGet activities d
  match activity with
  | some a =>
    if 0 < a.count then
      { date := d, intensity := calculateIntensity a metricType activities,
        hasPR := a.hasPR, count := a.count, tooltip := createTooltip d (some a) }
    else
      { date := d, intensity := .None, hasPR := false, count := 0,
        tooltip := createTooltip d (some a) }
  | none =>
    { date := d, intensity := .None, hasPR := false, count := 0,
      tooltip := createTooltip d none }

/-- The number of weeks createGrid allocates: (totalDays + startOffset +
endOffset) / 7, rounded up. -/
def totalWeeksFor (startD endD : ℤ) (weekStart : String) : ℤ :=
  let startOffset := dayOffset weekStart (weekdayOf startD)
  let endOffset := 6 - dayOffset weekStart (weekdayOf endD)
  let totalDays := endD - startD + 1
  let base := goDiv (totalDays + startOffset + endOffset) 7
  if 0 < goMod (totalDays + startOffset + endOffset) 7 then base + 1 else base

/-- HeatmapData.createGrid: the [week][day] cell grid.  The running date
starts startOffset days before startD and advances one day per slot, so
the cell at week w, day d holds the date startD - startOffset + 7w + d. -/
def createGridCells (activities : List DailyActivity) (metricType : String)
    (startD endD : ℤ) (weekStart : String) : List (List HeatmapCell) :=
  let startOffset := dayOffset weekStart (weekdayOf startD)
  let totalWeeks := (totalWeeksFor startD endD weekStart).toNat
  (List.range totalWeeks).map (fun (w : ℕ) =>
    (List.range 7).map (fun (d : ℕ) =>
      mkCell activities metricType (startD - startOffset + 7 * (w : ℤ) + (d : ℤ))))

/-- The month-label scan of generateLabels over one week: the first cell
whose month differs from the currently tracked month (the inner day loop
with its break). -/
def weekNewMonth (currentMonth : ℤ) (wk : List HeatmapCell) : Option ℤ :=
  match wk with
  | [] => none
  | c :: rest =>
    if (monthOf c.date : ℤ) ≠ currentMonth then some (monthOf c.date : ℤ)
    else weekNewMonth currentMonth rest

/-- The week-by-week month-label loop of generateLabels, carrying the
tracked month and the week index. -/
def monthLabelsAux (currentMonth : ℤ) (week : ℕ) :
    List (List HeatmapCell) → List (String × ℕ)
  | [] => []
  | wk :: rest =>
    match weekNewMonth currentMonth wk with
    | some m =>
      (monthNames3.getD m.toNat "", week) :: monthLabelsAux m (week + 1) rest
    | none => monthLabelsAux currentMonth (week + 1) rest

/-- The month-label part of HeatmapData.generateLabels: scan the grid
week by week (breaking out of each week at the first cell whose month
differs from the tracked month, initially -1) and record one label, with
its week index, per change observed. -/
def generateMonthLabels (cells : List (List HeatmapCell)) : List (String × ℕ) :=
  monthLabelsAux (-1) 0 cells

/-- The week-label part of HeatmapData.generateLabels: every other week is
labelled with the date of its first cell, the rest are empty strings. -/
def generateWeekLabels (cells : List (List HeatmapCell)) : List String :=
  (List.range cells.length).map (fun i =>
    if i % 2 = 0 then fmtMonDay ((cells.getD i []).getD 0 (mkCell [] "" 0)).date
    else "")

/-! ### String search helpers (strings.HasPrefix / Index / LastIndex,
and the width="(\d+)" regex of extractSVGDimensions) -/

/-- Whether the first list is an initial segment of the second
(strings.HasPrefix on char lists). -/
def leadsWith : List Char → List Char → Bool
  | [], _ => true
  | _ :: _, [] => false
  | p :: ps, c :: cs => p = c && leadsWith ps cs

/-- All indexes at which a pattern occurs in a char list. -/
def idxMatches (pat s : List Char) : List ℕ :=
  (List.range (s.length + 1)).filter (fun i => leadsWith pat (s.drop i))

/-- strings.Index: the first occurrence of a pattern, if any. -/
def strIdx (pat s : List Char) : Option ℕ := (idxMatches pat s).head?

/-- strings.LastIndex: the last occurrence of a pattern, if any. -/
def strLastIdx (pat s : List Char) : Option ℕ := (idxMatches pat s).getLast?

/-- Leftmost match of the regular expression LIT(\d+)" — a literal
followed by one or more digits and a closing double quote — returning the
digits' value (the submatch that extractSVGDimensions scans with Sscanf). -/
def scanNumAfter (lit : List Char) : List Char → Option ℕ
  | [] => none
  | c :: cs =>
    if leadsWith lit (c :: cs) then
      let rest := (c :: cs).drop lit.length
      let ds := rest.takeWhile isDigitCh
      if !ds.isEmpty && (rest.drop ds.length).head? = some '"' then some (digitsVal ds)
      else scanNumAfter lit cs
    else scanNumAfter lit cs

/-! ### Renderer (internal/svg/heatmap.go write functions, RenderSVG) -/

/-- The shared SVG root element opening produced by the fmt string
used in RenderSVG, generateStatsSVG and combineHeatmapAndStats. -/
def svgHeader (w h : ℤ) : String :=
  "<svg width=\"" ++ intStr w ++ "\" height=\"" ++ intStr h ++ "\" viewBox=\"0 0 " ++
    intStr w ++ " " ++ intStr h ++ "\" xmlns=\"http://www.w3.org/2000/svg\">"

/-- The fixed opening CSS of writeStyle (heatmap.go). -/
def styleBase : String :=
  "<style>\n  .heatmap-cell \x7b rx: 2; \x7d\n  .heatmap-label \x7b font-family: -apple-system, BlinkMacSystemFont, \"Segoe UI\", Helvetica, Arial, sans-serif; font-size: 10px; fill: #ffffff; \x7d\n  .heatmap-month-label \x7b font-family: -apple-system, BlinkMacSystemFont, \"Segoe UI\", Helvetica, Arial, sans-serif; font-size: 11px; font-weight: bold; fill: #ffffff; \x7d\n  .heatmap-day-label \x7b font-family: -apple-system, BlinkMacSystemFont, \"Segoe UI\", Helvetica, Arial, sans-serif; font-size: 12px; fill: #ffffff; font-weight: bold; \x7d\n  .heatmap-legend-text \x7b font-family: -apple-system, BlinkMacSystemFont, \"Segoe UI\", Helvetica, Arial, sans-serif; font-size: 12px; fill: #ffffff; font-weight: bold; \x7d\n  .heatmap-tooltip \x7b font-family: -apple-system, BlinkMacSystemFont, \"Segoe UI\", Helvetica, Arial, sans-serif; font-size: 12px; pointer-events: none; filter: drop-shadow(0px 0px 2px rgba(0,0,0,0.2)); opacity: 0; transition: opacity 0.2s; \x7d\n  .heatmap-cell:hover + .heatmap-tooltip \x7b opacity: 1; \x7d\n  .heatmap-tooltip-rect \x7b fill: white; stroke: #ddd; rx: 3; \x7d\n  .heatmap-tooltip-text \x7b font-size: 11px; fill: #333; \x7d\n  .heatmap-tooltip-header \x7b font-weight: bold; \x7d\n  .pr-marker \x7b fill: #ff8c00; \x7d"

/-- The fixed dark-mode CSS block of writeStyle (heatmap.go). -/
def styleDarkBase : String :=
  "\n  @media (prefers-color-scheme: dark) \x7b\n    .heatmap-label \x7b fill: #8b949e; \x7d\n    .heatmap-month-label \x7b fill: #c9d1d9; \x7d\n    .heatmap-day-label \x7b fill: #8b949e; \x7d\n    .heatmap-legend-text \x7b fill: #8b949e; \x7d\n    .heatmap-tooltip-rect \x7b fill: #161b22; stroke: #30363d; \x7d\n    .heatmap-tooltip-text \x7b fill: #c9d1d9; \x7d\n  \x7d"

/-- HeatmapData.writeStyle: the style block, including the per-intensity
color classes of the light theme and, when dark-mode support is enabled,
of the dark theme. -/
def writeStyle (theme darkTheme : ColorTheme) (darkModeSupport : Bool) : String :=
  styleBase ++
  (if darkModeSupport then styleDarkBase else "") ++
  String.join ((List.range 5).map (fun i =>
    "\n  .intensity-" ++ natStr i ++ " \x7b fill: " ++ theme.colors.getD i "" ++ "; \x7d")) ++
  (if darkModeSupport then
    "\n  @media (prefers-color-scheme: dark) \x7b" ++
    String.join ((List.range 5).map (fun i =>
      "\n    .intensity-" ++ natStr i ++ " \x7b fill: " ++ darkTheme.colors.getD i "" ++ "; \x7d")) ++
    "\n  \x7d"
  else "") ++
  "\n</style>"

/-- The first-week-of-each-month-year map of writeMonthLabels: keys are
the fmt "%d-%d" month-year strings of each week's first cell date, mapped
to the first week index at which they occur, in insertion order. -/
def monthYearStarts (cells : List (List HeatmapCell)) : List (String × ℕ) :=
  cells.enum.foldl (fun acc wp =>
    match wp.2 with
    | [] => acc
    | c :: _ =>
      let key := intStr (monthOf c.date : ℤ) ++ "-" ++ intStr (yearOf c.date)
      if acc.any (fun p => p.1 = key) then acc else acc ++ [(key, wp.1)]) []

/-- Split a string on every occurrence of a separator character
(strings.Split with a one-character separator). -/
def splitCharAux (sep : Char) : List Char → List Char → List String
  | [], acc => [⟨acc.reverse⟩]
  | x :: xs, acc =>
    if x = sep then ⟨acc.reverse⟩ :: splitCharAux sep xs []
    else splitCharAux sep xs (x :: acc)

/-- strings.Split on a one-character separator. -/
def splitChar (sep : Char) (s : String) : List String := splitCharAux sep s.data []

/-- One iteration of the writeMonthLabels label loop: state is
(lastLabelX, firstMonthSkipped, output). -/
def monthLabelRow (cellSize cellSpacing : ℤ) (st : ℤ × Bool × String)
    (pos : String × ℕ) : ℤ × Bool × String :=
  let parts := splitChar '-' pos.1
  if parts.length ≠ 2 then st
  else
    let month := atoiNat (parts.getD 0 "")
    if month = 0 || 12 < month then st
    else if !st.2.1 then (st.1, true, st.2.2)
    else
      let x := (pos.2 : ℤ) * (cellSize + cellSpacing) + 70
      if 35 ≤ x - st.1 then
        (x, st.2.1, st.2.2 ++ "<text x=\"" ++ intStr x ++ "\" y=\"20\" class=\"heatmap-month-label\">" ++
          monthNames3.getD month "" ++ "</text>")
      else st

/-- HeatmapData.writeMonthLabels.  The Go code ranges over the
monthYearStarts map, whose enumeration order is unspecified; the embedding
takes that enumeration as the explicit parameter mapEnum, then sorts the
enumerated entries by week position as the code does. -/
def writeMonthLabels (mapEnum : List (String × ℕ) → List (String × ℕ))
    (cells : List (List HeatmapCell)) (cellSize cellSpacing : ℤ) : String :=
  let sortedPositions :=
    List.insertionSort (fun a b => a.2 ≤ b.2) (mapEnum (monthYearStarts cells))
  let final := sortedPositions.foldl (monthLabelRow cellSize cellSpacing) (-(35 * 2), false, "")
  "<g class=\"heatmap-month-labels\">" ++ final.2.2 ++ "</g>"

/-- HeatmapData.writeWeekLabels: an intentionally empty group. -/
def writeWeekLabelsStr : String := "<g class=\"heatmap-week-labels\"></g>"

/-- The day-of-week row labels of writeCells, rotated for the configured
week start. -/
def dayLabelsFor (weekStart : String) : List String :=
  if weekStart = "Monday" then ["Mon", "Tue", "Wed", "Thu", "Fri", "Sat", "Sun"]
  else ["Sun", "Mon", "Tue", "Wed", "Thu", "Fri", "Sat"]

/-- The markup writeCells emits for one grid cell (empty for the padding
cells outside the date range): the rect with its title tooltip, the PR
marker, and the hover tooltip group. -/
def cellMarkup (cellSize cellSpacing totalWidth startD endD : ℤ) (week day : ℕ)
    (cell : HeatmapCell) : String :=
  if cell.date < startD || endD < cell.date then ""
  else
    let x := (week : ℤ) * (cellSize + cellSpacing) + 70
    let y := (day : ℤ) * (cellSize + cellSpacing) + 30
    let rect := "<rect x=\"" ++ intStr x ++ "\" y=\"" ++ intStr y ++ "\" width=\"" ++
      intStr cellSize ++ "\" height=\"" ++ intStr cellSize ++
      "\" class=\"heatmap-cell intensity-" ++ natStr cell.intensity.toInt ++
      "\" data-date=\"" ++ fmtISO cell.date ++ "\" data-count=\"" ++ natStr cell.count ++
      "\">" ++ "<title>" ++ cell.tooltip ++ "</title></rect>"
    let pr := if cell.hasPR then
        "<circle cx=\"" ++ intStr (x + goDiv (cellSize * 3) 4) ++ "\" cy=\"" ++
          intStr (y + goDiv (cellSize * 1) 4) ++ "\" r=\"" ++ intStr (goDiv cellSize 6) ++
          "\" class=\"pr-marker\" />"
      else ""
    let tooltipX := if totalWidth < x + cellSize + 5 + 200 then x - 200 - 5 else x + cellSize + 5
    let ttBody := if 0 < cell.count then
        "<text x=\"10\" y=\"15\" class=\"heatmap-tooltip-text heatmap-tooltip-header\">" ++
          fmtDateLong cell.date ++ "</text>" ++
        "<text x=\"10\" y=\"35\" class=\"heatmap-tooltip-text\">" ++ natStr cell.count ++
          " activities</text>" ++
        (if cell.hasPR then
          "<text x=\"10\" y=\"55\" class=\"heatmap-tooltip-text\" fill=\"#ff8c00\">Personal Record!</text>"
        else "")
      else
        "<text x=\"10\" y=\"25\" class=\"heatmap-tooltip-text\">No activities on " ++
          fmtDateLong cell.date ++ "</text>"
    let tt := "<g class=\"heatmap-tooltip\" transform=\"translate(" ++ intStr tooltipX ++
      ", " ++ intStr y ++ ")\">" ++
      "<rect x=\"0\" y=\"0\" width=\"200\" height=\"80\" class=\"heatmap-tooltip-rect\" />" ++
      ttBody ++ "</g>"
    rect ++ pr ++ tt

/-- HeatmapData.writeCells: the day-of-week labels followed by the markup
for every in-range cell. -/
def writeCells (cells : List (List HeatmapCell)) (cellSize cellSpacing : ℤ)
    (weekStart : String) (totalWidth startD endD : ℤ) : String :=
  "<g class=\"heatmap-cells\">" ++
  String.join ((dayLabelsFor weekStart).enum.map (fun p =>
    "<text x=\"" ++ intStr (70 - 10) ++ "\" y=\"" ++
      intStr ((p.1 : ℤ) * (cellSize + cellSpacing) + 30 + goDiv cellSize 2 + 5) ++
      "\" class=\"heatmap-day-label\" text-anchor=\"end\">" ++ p.2 ++ "</text>")) ++
  String.join (cells.enum.map (fun wp =>
    String.join (wp.2.enum.map (fun dp =>
      cellMarkup cellSize cellSpacing totalWidth startD endD wp.1 dp.1 dp.2)))) ++
  "</g>"

/-- HeatmapData.writeLegend: the Less / swatches / More legend centered
beneath the grid. -/
def writeLegend (cellSize cellSpacing totalWidth : ℤ) : String :=
  let legendY := 7 * (cellSize + cellSpacing) + 50
  let legendWidth := 5 * (cellSize + 2) + 100
  let centerX := goDiv (totalWidth - legendWidth) 2
  let boxSize := cellSize + 4
  "<g class=\"heatmap-legend\" transform=\"translate(" ++ intStr centerX ++ ", " ++
    intStr legendY ++ ")\">" ++
  "<text x=\"0\" y=\"11\" class=\"heatmap-legend-text\" text-anchor=\"start\">Less</text>" ++
  String.join ((List.range 5).map (fun (i : ℕ) =>
    "<rect x=\"" ++ intStr (40 + (i : ℤ) * (boxSize + 4)) ++
      "\" y=\"0\" width=\"" ++ intStr boxSize ++ "\" height=\"" ++ intStr boxSize ++
      "\" class=\"heatmap-cell intensity-" ++ natStr i ++ "\" />")) ++
  "<text x=\"" ++ intStr (40 + 5 * (boxSize + 4) + 5) ++
    "\" y=\"11\" class=\"heatmap-legend-text\" text-anchor=\"start\">More</text>" ++
  "</g>"

/-- svg.HeatmapData (the fields the embedded pipeline reads). -/
structure HeatmapData where
  startDate : ℤ
  endDate : ℤ
  cells : List (List HeatmapCell)
  weekLabels : List String
  monthLabels : List (String × ℕ)
  colorTheme : ColorTheme
  darkModeTheme : ColorTheme
  cellSize : ℤ
  cellSpacing : ℤ
  weekStart : String
  darkModeSupport : Bool

/-- svg.NewHeatmapData: resolve themes, normalize cell size and week
start, build the grid and the labels. -/
def buildHeatmapData (activities : List DailyActivity) (startD endD : ℤ)
    (colorScheme : String) (customColors darkModeColors : List String)
    (cellSize : ℤ) (weekStart : String) (darkModeSupport : Bool)
    (metricType : String) : HeatmapData :=
  let theme := GetTheme colorScheme customColors
  let darkTheme := GetDarkModeTheme theme darkModeColors
  let cellSize := if cellSize < 5 then 11 else cellSize
  let weekStart := if weekStart ≠ "Sunday" ∧ weekStart ≠ "Monday" then "Monday" else weekStart
  let cells := createGridCells activities metricType startD endD weekStart
  { startDate := startD, endDate := endD, cells := cells,
    weekLabels := generateWeekLabels cells, monthLabels := generateMonthLabels cells,
    colorTheme := theme, darkModeTheme := darkTheme,
    cellSize := cellSize, cellSpacing := 2,
    weekStart := weekStart, darkModeSupport := darkModeSupport }

/-- The canvas width RenderSVG computes (cellsPerRow = number of weeks,
cell spacing raised to 4, plus the 100px width padding). -/
def renderTotalWidth (h : HeatmapData) : ℤ := (h.cells.length : ℤ) * (h.cellSize + 4) + 100

/-- The canvas height RenderSVG computes (7 rows plus 80px for labels). -/
def renderTotalHeight (h : HeatmapData) : ℤ := 7 * (h.cellSize + 4) + 80

/-- HeatmapData.RenderSVG: header, style, labels, cells and legend.
RenderSVG sets CellSpacing to 4 before computing any coordinates.  The
mapEnum parameter is the unspecified Go map enumeration order used inside
writeMonthLabels. -/
def renderSVG (mapEnum : List (String × ℕ) → List (String × ℕ)) (h : HeatmapData) : String :=
  let totalWidth := renderTotalWidth h
  let totalHeight := renderTotalHeight h
  svgHeader totalWidth totalHeight ++
  writeStyle h.colorTheme h.darkModeTheme h.darkModeSupport ++
  writeMonthLabels mapEnum h.cells h.cellSize 4 ++
  writeWeekLabelsStr ++
  writeCells h.cells h.cellSize 4 h.weekStart totalWidth h.startDate h.endDate ++
  writeLegend h.cellSize 4 totalWidth ++
  "</svg>"

/-! ### Overall statistics (internal/processor/metrics.go) and the stats
panel (internal/svg/generator.go) -/

/-- Add n to one activity type's count in the stats ActivityTypes map. -/
def typesAdd (m : List (String × ℕ)) (t : String) (n : ℕ) : List (String × ℕ) :=
  match m with
  | [] => [(t, n)]
  | (t', n') :: rest => if t' = t then (t', n' + n) :: rest else (t', n') :: typesAdd rest t n

/-- One day of MetricsCalculator.CalculateOverallStats: state is
(stats, currentStreak, longestStreak). -/
def overallStep (st : ActivityStats × ℕ × ℕ) (day : DailyActivity) :
    ActivityStats × ℕ × ℕ :=
  let (stats, currentStreak, longestStreak) := st
  if 0 < day.count then
    let stats := { stats with
      totalActivities := stats.totalActivities + day.count,
      totalDistance := stats.totalDistance + day.totalDistance / 1000,
      totalDuration := stats.totalDuration + goDiv day.totalDuration 3600,
      totalElevation := stats.totalElevation + day.totalElevation,
      activeDays := stats.activeDays + 1,
      prCount := if day.hasPR then stats.prCount + 1 else stats.prCount,
      activityTypes := day.types.foldl (fun m p => typesAdd m p.1 p.2) stats.activityTypes }
    let currentStreak := currentStreak + 1
    let longestStreak := max longestStreak currentStreak
    (stats, currentStreak, longestStreak)
  else (stats, 0, longestStreak)

/-- MetricsCalculator.CalculateOverallStats. -/
def overallStats (dailyData : List DailyActivity) : ActivityStats :=
  let init : ActivityStats :=
    { totalActivities := 0, totalDistance := 0, totalDuration := 0, totalElevation := 0,
      activityTypes := [], prCount := 0, activeDays := 0, longestStreak := 0 }
  let final := dailyData.foldl overallStep (init, 0, 0)
  { final.1 with longestStreak := final.2.2 }

/-- The fixed CSS of generateStatsSVG. -/
def statsStyleBase : String :=
  "<style>\n  .stats-panel \x7b fill: #f6f8fa; stroke: #e1e4e8; rx: 6; \x7d\n  .stats-title \x7b font-family: -apple-system, BlinkMacSystemFont, \"Segoe UI\", Helvetica, Arial, sans-serif; font-size: 16px; font-weight: bold; fill: #24292e; \x7d\n  .stats-label \x7b font-family: -apple-system, BlinkMacSystemFont, \"Segoe UI\", Helvetica, Arial, sans-serif; font-size: 12px; fill: #586069; \x7d\n  .stats-value \x7b font-family: -apple-system, BlinkMacSystemFont, \"Segoe UI\", Helvetica, Arial, sans-serif; font-size: 14px; font-weight: bold; fill: #24292e; \x7d\n  .stats-unit \x7b font-family: -apple-system, BlinkMacSystemFont, \"Segoe UI\", Helvetica, Arial, sans-serif; font-size: 12px; fill: #586069; \x7d"

/-- The dark-mode CSS block of generateStatsSVG. -/
def statsStyleDark : String :=
  "\n  @media (prefers-color-scheme: dark) \x7b\n    .stats-panel \x7b fill: #0d1117; stroke: #30363d; \x7d\n    .stats-title \x7b fill: #c9d1d9; \x7d\n    .stats-label \x7b fill: #8b949e; \x7d\n    .stats-value \x7b fill: #c9d1d9; \x7d\n    .stats-unit \x7b fill: #8b949e; \x7d\n  \x7d"

/-- Generator.generateStatsSVG: the 300x200 Activity Summary panel.  Of
the stats map built by StatsGenerator.GenerateStats, only the "overall"
entry (an ActivityStats) is ever read here, so the panel is a function of
that entry and the dark-mode flag. -/
def generateStatsSVG (darkModeSupport : Bool) (overall : ActivityStats) : String :=
  svgHeader 300 200 ++
  statsStyleBase ++
  (if darkModeSupport then statsStyleDark else "") ++
  "\n</style>" ++
  "<rect x=\"0\" y=\"0\" width=\"300\" height=\"200\" class=\"stats-panel\" />" ++
  "<text x=\"15\" y=\"30\" class=\"stats-title\">Activity Summary</text>" ++
  "<text x=\"15\" y=\"60\" class=\"stats-label\">Total Activities</text>" ++
  "<text x=\"150\" y=\"60\" class=\"stats-value\">" ++ natStr overall.totalActivities ++ "</text>" ++
  "<text x=\"15\" y=\"85\" class=\"stats-label\">Total Distance</text>" ++
  "<text x=\"150\" y=\"85\" class=\"stats-value\">" ++ fmtQ1 overall.totalDistance ++ "</text>" ++
  "<text x=\"185\" y=\"85\" class=\"stats-unit\">km</text>" ++
  "<text x=\"15\" y=\"110\" class=\"stats-label\">Total Duration</text>" ++
  "<text x=\"150\" y=\"110\" class=\"stats-value\">" ++ intStr overall.totalDuration ++ "</text>" ++
  "<text x=\"170\" y=\"110\" class=\"stats-unit\">hours</text>" ++
  "<text x=\"15\" y=\"135\" class=\"stats-label\">Active Days</text>" ++
  "<text x=\"150\" y=\"135\" class=\"stats-value\">" ++ natStr overall.activeDays ++ "</text>" ++
  "<text x=\"15\" y=\"160\" class=\"stats-label\">Longest Streak</text>" ++
  "<text x=\"150\" y=\"160\" class=\"stats-value\">" ++ natStr overall.longestStreak ++ "</text>" ++
  "<text x=\"170\" y=\"160\" class=\"stats-unit\">days</text>" ++
  "<text x=\"15\" y=\"185\" class=\"stats-label\">Personal Records</text>" ++
  "<text x=\"150\" y=\"185\" class=\"stats-value\">" ++ natStr overall.prCount ++ "</text>" ++
  "</svg>"

/-! ### SVG composition (internal/svg/generator.go) -/

/-- extractSVGDimensions: the leftmost width="(\d+)" and height="(\d+)"
matches of the document (0 when absent, as the Go ints stay zero). -/
def extractSVGDimensions (svg : String) : ℤ × ℤ :=
  let w := (scanNumAfter "width=\"".data svg.data).getD 0
  let h := (scanNumAfter "height=\"".data svg.data).getD 0
  ((w : ℤ), (h : ℤ))

/-- extractSVGContent: the text strictly between the first ">" and the
last "</svg>", or "" when either is missing. -/
def extractSVGContent (svg : String) : String :=
  match strIdx ">".data svg.data, strLastIdx "</svg>".data svg.data with
  | some s, some e => ⟨(svg.data.take e).drop (s + 1)⟩
  | _, _ => ""

/-- Generator.combineHeatmapAndStats: place the two documents side by
side with a 10px margin; the combined canvas is the sum of widths and the
max of heights. -/
def combineHeatmapAndStats (heatmapSVG statsSVG : String) : String :=
  let hd := extractSVGDimensions heatmapSVG
  let sd := extractSVGDimensions statsSVG
  let totalWidth := hd.1 + sd.1 + 10
  let totalHeight := max hd.2 sd.2
  svgHeader totalWidth totalHeight ++
  "<g transform=\"translate(0, 0)\">" ++ extractSVGContent heatmapSVG ++ "</g>" ++
  "<g transform=\"translate(" ++ intStr (hd.1 + 10) ++ ", 0)\">" ++
    extractSVGContent statsSVG ++ "</g>" ++
  "</svg>"

/-! ### The full pipeline (Generator.GenerateHeatmap) -/

/-- Generator.GenerateHeatmap: resolve the timezone (non-fatally) and the
date range (fatally), aggregate, fill the range, build the heatmap,
render, optionally composite the stats panel, and run the final sanity
check that the output starts with an svg tag.  mapEnum is the unspecified
Go map enumeration order (see writeMonthLabels). -/
def generateHeatmapE (mapEnum : List (String × ℕ) → List (String × ℕ))
    (cfg : Config) (acts : List SummaryActivity) (tzdb : TzDb) (now : ℤ) :
    Except String String :=
  let location := (getTimeZoneLocation cfg tzdb).1
  match getDateRange cfg tzdb now with
  | .error e => .error ("error getting date range: " ++ e)
  | .ok (startD, endD) =>
    let daily := aggregate location acts
    let ordered := getOrderedDates daily startD endD
    let h := buildHeatmapData ordered startD endD cfg.colorScheme cfg.customColors
      cfg.darkModeColors cfg.cellSize cfg.weekStart cfg.darkModeSupport cfg.metricType
    let svgContent := renderSVG mapEnum h
    let svgContent :=
      if cfg.showStats then
        combineHeatmapAndStats svgContent
          (generateStatsSVG cfg.darkModeSupport (overallStats ordered))
      else svgContent
    let svgContent :=
      if leadsWith "<svg".data svgContent.data then svgContent
      else
        match strIdx "<svg".data svgContent.data with
        | some i => ⟨svgContent.data.drop i⟩
        | none => svgContent
    if leadsWith "<svg".data svgContent.data then .ok svgContent
    else .error "generated content is not a valid SVG (does not start with <svg> tag)"

/-- GenerateHeatmap under one fixed (arbitrary) map enumeration order. -/
def generateHeatmap (cfg : Config) (acts : List SummaryActivity) (tzdb : TzDb)
    (now : ℤ) : Except String String :=
  generateHeatmapE id cfg acts tzdb now

/-! ### Claim-side (specification-worded) definitions, for comparison
with the source-derived definitions above -/

/-- Spec wording: the ascending-sorted array of strictly positive
extracted metric values across all buckets with count > 0. -/
def positiveMetricValues (metricType : String) (buckets : List DailyActivity) : List ℚ :=
  List.insertionSort (fun a b => a ≤ b)
    (((buckets.filter (fun b => 0 < b.count)).map (metricValue metricType)).filter
      (fun v => 0 < v))

/-- Spec wording: the insertion position of a value in a sorted array —
the first position whose element is not less than the value (the array
length when every element is less). -/
def insertionPosition (sorted : List ℚ) (v : ℚ) : ℕ :=
  sorted.findIdx (fun x => !decide (x < v))

/-- Spec wording: the percentile-to-tier thresholds. -/
def tierOfPercentile (p : ℚ) : HeatmapIntensity :=
  if p ≤ 1/4 then .Low
  else if p ≤ 1/2 then .Medium
  else if p ≤ 3/4 then .High
  else .VeryHigh

/-- The tier classification exactly as the specification words it: None
for count = 0; Low for an active bucket when the positive-value array is
empty; otherwise the tier of (insertion position / array length). -/
def intensitySpec (day : DailyActivity) (metricType : String)
    (buckets : List DailyActivity) : HeatmapIntensity :=
  if day.count = 0 then .None
  else
    let vals := positiveMetricValues metricType buckets
    if vals = [] then .Low
    else tierOfPercentile ((insertionPosition vals (metricValue metricType day) : ℚ) / (vals.length : ℚ))

/-- The per-day aggregation: fold the Aggregate update over the records
of one local date, starting from the fresh bucket for that date.  The
lookup of the aggregate map at a key is exactly this fold over the
records whose local date is that key (empty fold = empty placeholder). -/
def dayAgg (k : ℤ) (l : List SummaryActivity) : DailyActivity :=
  l.foldl dayStep (freshBucket k)

/-- The order-independent projection of a daily bucket: everything except
the contributing-id list, the heart-rate average and the (association
list represented) type-count map. -/
def bucketCore (b : DailyActivity) : ℤ × ℕ × ℚ × ℤ × ℚ × Bool × ℚ :=
  (b.date, b.count, b.totalDistance, b.totalDuration, b.totalElevation, b.hasPR,
    b.maxHeartRate)

/-- The month-label scan as the amended claim words it: a left fold over
the index-paired weeks carrying the most recently recorded month
(initially -1); a week whose cells contain, at the first position, a month
different from the recorded one emits exactly one label for that week. -/
def monthLabelsSpec (cells : List (List HeatmapCell)) : List (String × ℕ) :=
  (cells.enum.foldl (fun st wp =>
    match (wp.2.map (fun c => (monthOf c.date : ℤ))).find? (fun m => m ≠ st.1) with
    | some m => (m, st.2 ++ [(monthNames3.getD m.toNat "", wp.1)])
    | none => st) ((-1 : ℤ), ([] : List (String × ℕ)))).2

/-! ### Concrete sample data for counterexamples and witnesses -/

/-- A one-activity daily bucket with a given date and total distance in
meters (duration one hour, one Run). -/
def sampleDay (d : ℤ) (dist : ℚ) : DailyActivity :=
  { date := d, count := 1, totalDistance := dist, totalDuration := 3600,
    totalElevation := 0, activities := [d], maxHeartRate := 0, avgHeartRate := 0,
    hasPR := false, types := [("Run", 1)] }

/-- The five active days of the specification's percentile example:
extracted distance values 0, 5, 10, 15 and 20 km, each with positive
duration. -/
def c2buckets : List DailyActivity :=
  [sampleDay 0 0, sampleDay 1 5000, sampleDay 2 10000, sampleDay 3 15000, sampleDay 4 20000]

/-- A minimal activity record: id, type, start instant, average and max
heart rate. -/
def sampleAct (id : ℤ) (t : ℤ) (avgHr maxHr : ℚ) : SummaryActivity :=
  { id := id, name := "a", distance := 1000, movingTime := 600, totalElevGain := 0,
    type := "Run", startDate := t, averageHeartrate := avgHr, maxHeartrate := maxHr,
    prCount := 0 }

/-- A timezone database that resolves only "UTC". -/
def tzdbUTC : TzDb := fun s => if s = "UTC" then some 0 else none

/-- A baseline configuration: custom two-day range at the epoch, distance
metric, github theme, stats disabled. -/
def cfgBase : Config :=
  { activityTypes := ["Run"], metricType := "distance", colorScheme := "github",
    customColors := [], showStats := false, statTypes := [], dateRange := "custom",
    customStart := "1970-01-01", customEnd := "1970-01-02", cellSize := 11,
    darkModeSupport := false, darkModeColors := [], weekStart := "Monday",
    timeZone := "UTC", debug := false }

/-! ## Theorems -/

/-! ### Generic helper lemmas -/

theorem findIdx_eq_length_takeWhile {α : Type} (p : α → Bool) (l : List α) :
    l.findIdx p = (l.takeWhile (fun a => !p a)).length := by
  induction l with
  | nil => rfl
  | cons a l ih =>
    rw [List.findIdx_cons, List.takeWhile_cons]
    cases h : p a <;> simp [h, ih]

theorem searchFloat64s_eq_insertionPosition (l : List ℚ) (x : ℚ) :
    searchFloat64s l x = insertionPosition l x := by
  rw [insertionPosition, findIdx_eq_length_takeWhile, searchFloat64s]
  simp only [Bool.not_not]

/-! ### C10: theme palettes always have exactly five colors -/

/-- C10: for every theme name and custom palette, GetTheme returns exactly
5 colors (invalid custom palettes and unknown names fall back to the
github palette), GetDarkModeTheme always returns exactly 5 colors, and so
the indices 0..4 that writeStyle reads are always in bounds. -/
theorem C10_theme_palette_size :
    (∀ name customColors, (GetTheme name customColors).colors.length = 5) ∧
    (∀ lightTheme customDarkColors,
      (GetDarkModeTheme lightTheme customDarkColors).colors.length = 5) ∧
    (∀ name customColors customDarkColors i, i < 5 →
      i < (GetTheme name customColors).colors.length ∧
      i < (GetDarkModeTheme (GetTheme name customColors) customDarkColors).colors.length) := by
  have h1 : ∀ name customColors, (GetTheme name customColors).colors.length = 5 := by
    intro name cc
    unfold GetTheme
    split <;> first
      | rfl
      | (split_ifs with h <;> simp [h])
  have h2 : ∀ lt cdc, (GetDarkModeTheme lt cdc).colors.length = 5 := by
    intro lt cdc
    unfold GetDarkModeTheme
    split_ifs with h
    · simpa using h
    · split <;> rfl
  exact ⟨h1, h2, fun name cc cdc i hi =>
    ⟨by rw [h1 name cc]; exact hi, by rw [h2 (GetTheme name cc) cdc]; exact hi⟩⟩

/-- C10 witness: a concrete unknown theme name, short custom palette and
index. -/
theorem C10_witness :
    4 < (GetTheme "no-such-theme" ["#000000"]).colors.length ∧
    4 < (GetDarkModeTheme (GetTheme "no-such-theme" ["#000000"]) []).colors.length :=
  C10_theme_palette_size.2.2 "no-such-theme" ["#000000"] [] 4 (by decide)

/-! ### C7: an unresolvable timezone aborts generation (code bug) -/

/-- C7 (code behavior at the failing input): when the configured timezone
does not resolve, GetDateRange propagates the timezone error and
GenerateHeatmap returns an error instead of falling back to UTC — no SVG
is produced, contradicting the documented non-fatal UTC fallback. -/
theorem C7_invalid_timezone_aborts (cfg : Config) (acts : List SummaryActivity)
    (tzdb : TzDb) (now : ℤ) (hbad : tzdb cfg.timeZone = none) :
    generateHeatmap cfg acts tzdb now =
      .error ("error getting date range: " ++
        ("invalid timezone: " ++ cfg.timeZone ++ ", defaulting to UTC")) := by
  rw [generateHeatmap, generateHeatmapE, getDateRange, getTimeZoneLocation, hbad]

/-- C7 witness: the concrete unresolvable zone name Mars/Phobos. -/
theorem C7_witness :
    generateHeatmap { cfgBase with timeZone := "Mars/Phobos" } [] tzdbUTC 0 =
      .error "error getting date range: invalid timezone: Mars/Phobos, defaulting to UTC" := by
  rw [C7_invalid_timezone_aborts { cfgBase with timeZone := "Mars/Phobos" } [] tzdbUTC 0
    (by decide)]
  rfl

/-! ### C1: the tier classification function matches its specification -/

/-- C1: for every bucket, metric type and bucket set, calculateIntensity
returns None for a zero-count bucket; Low for an active bucket when the
array of strictly positive extracted values over active buckets is empty;
and otherwise the tier of (insertion position in the ascending-sorted
positive array / array length) under the thresholds 0.25 / 0.5 / 0.75. -/
theorem C1_calculateIntensity_spec (day : DailyActivity) (metricType : String)
    (allActivities : List DailyActivity) :
    calculateIntensity day metricType allActivities =
      intensitySpec day metricType allActivities := by
  have hfe : (fun (data : DailyActivity) => decide (data.count ≠ 0)) =
      (fun (b : DailyActivity) => decide (0 < b.count)) := by
    funext x
    exact decide_eq_decide.mpr Nat.pos_iff_ne_zero.symm
  rw [calculateIntensity, intensitySpec]
  by_cases h0 : day.count = 0
  · simp [h0]
  · rw [if_neg h0, if_neg h0, positiveMetricValues, hfe]
    simp only [← searchFloat64s_eq_insertionPosition, tierOfPercentile,
      ← List.length_eq_zero, List.length_insertionSort]

/-! ### C2: the spec's worked percentile example does not match the code -/

/-- C2 counterexample: for the five active days with extracted distance
values 0, 5, 10, 15, 20 km, the code classifies them Low, Low, Low,
Medium, High — not the Low, Low, Medium, High, VeryHigh the claim
states (the zero value is excluded from the strictly positive reference
array, so the ranks are 0, 0, 1/4, 1/2, 3/4 rather than
0, 0.2, 0.4, 0.6, 0.8). -/
theorem C2_counterexample :
    (c2buckets.map (fun d => calculateIntensity d "distance" c2buckets)) =
      [.Low, .Low, .Low, .Medium, .High] ∧
    (c2buckets.map (fun d => calculateIntensity d "distance" c2buckets)) ≠
      [.Low, .Low, .Medium, .High, .VeryHigh] := by
  have h : (c2buckets.map (fun d => calculateIntensity d "distance" c2buckets)) =
      [.Low, .Low, .Low, .Medium, .High] := by
    norm_num [c2buckets, sampleDay, calculateIntensity, metricValue, searchFloat64s,
      List.insertionSort, List.orderedInsert, List.takeWhile, List.filter, List.map]
  exact ⟨h, by rw [h]; decide⟩

/-- C2 amended: for those five days the strictly positive reference array
is [5, 10, 15, 20] km, the insertion-position percentile ranks are
0, 0, 0.25, 0.5, 0.75, and the tiers are Low, Low, Low, Medium, High. -/
theorem C2_amended :
    positiveMetricValues "distance" c2buckets = [5000, 10000, 15000, 20000] ∧
    (c2buckets.map (fun d =>
      ((searchFloat64s (positiveMetricValues "distance" c2buckets)
        (metricValue "distance" d) : ℚ) /
          ((positiveMetricValues "distance" c2buckets).length : ℚ)))) =
      [0, 0, 1/4, 1/2, 3/4] ∧
    (c2buckets.map (fun d => calculateIntensity d "distance" c2buckets)) =
      [.Low, .Low, .Low, .Medium, .High] := by
  refine ⟨?_, ?_, ?_⟩ <;>
    norm_num [c2buckets, sampleDay, positiveMetricValues, calculateIntensity, metricValue,
      searchFloat64s, List.insertionSort, List.orderedInsert, List.takeWhile, List.filter,
      List.map]

/-! ### Aggregation characterization lemmas -/

theorem foldl_mapStep_lookup (off : ℤ) (acts : List SummaryActivity) :
    ∀ (m : ℤ → Option DailyActivity) (k : ℤ),
      (acts.foldl (mapStep off) m) k =
        (acts.filter (fun a => localDay off a.startDate = k)).foldl
          (fun ob a => some (dayStep (ob.getD (freshBucket k)) a)) (m k) := by
  induction acts with
  | nil => intro m k; rfl
  | cons a acts ih =>
    intro m k
    rw [List.foldl_cons, ih]
    by_cases hk : localDay off a.startDate = k
    · have hinit : (mapStep off m a) k = some (dayStep ((m k).getD (freshBucket k)) a) := by
        simp only [mapStep, hk, if_true]
        cases m k <;> rfl
      rw [List.filter_cons, if_pos (by simpa using hk), List.foldl_cons, hinit]
    · have hinit : (mapStep off m a) k = m k := by
        simp only [mapStep]
        rw [if_neg (fun h => hk h.symm)]
      rw [List.filter_cons, if_neg (by simpa using hk), hinit]

theorem foldl_optStep_some (k : ℤ) (l : List SummaryActivity) :
    ∀ b, l.foldl (fun ob a => some (dayStep (ob.getD (freshBucket k)) a)) (some b) =
      some (l.foldl dayStep b) := by
  induction l with
  | nil => intro b; rfl
  | cons a l ih => intro b; rw [List.foldl_cons, List.foldl_cons]; exact ih _

/-- The aggregate map at a key is the per-day fold over exactly the
records whose local date is that key. -/
theorem aggregate_lookup (off : ℤ) (acts : List SummaryActivity) (k : ℤ) :
    aggregate off acts k =
      if (acts.filter (fun a => localDay off a.startDate = k)) = [] then none
      else some (dayAgg k (acts.filter (fun a => localDay off a.startDate = k))) := by
  rw [aggregate, foldl_mapStep_lookup]
  cases hf : acts.filter (fun a => localDay off a.startDate = k) with
  | nil => rfl
  | cons a l =>
    rw [if_neg (by simp)]
    rw [List.foldl_cons, foldl_optStep_some, dayAgg, List.foldl_cons]
    rfl

theorem foldl_dayStep_date (l : List SummaryActivity) :
    ∀ b, (l.foldl dayStep b).date = b.date := by
  induction l with
  | nil => intro b; rfl
  | cons a l ih => intro b; rw [List.foldl_cons, ih]; rfl

theorem dayAgg_date (k : ℤ) (l : List SummaryActivity) : (dayAgg k l).date = k :=
  foldl_dayStep_date l _

theorem foldl_dayStep_count (l : List SummaryActivity) :
    ∀ b, (l.foldl dayStep b).count = b.count + l.length := by
  induction l with
  | nil => intro b; simp
  | cons a l ih =>
    intro b
    rw [List.foldl_cons, ih]
    simp [dayStep]
    omega

theorem foldl_dayStep_distance (l : List SummaryActivity) :
    ∀ b, (l.foldl dayStep b).totalDistance =
      b.totalDistance + (l.map (fun a => a.distance)).sum := by
  induction l with
  | nil => intro b; simp
  | cons a l ih =>
    intro b
    rw [List.foldl_cons, ih]
    simp [dayStep]
    ring

theorem foldl_dayStep_duration (l : List SummaryActivity) :
    ∀ b, (l.foldl dayStep b).totalDuration =
      b.totalDuration + (l.map (fun a => a.movingTime)).sum := by
  induction l with
  | nil => intro b; simp
  | cons a l ih =>
    intro b
    rw [List.foldl_cons, ih]
    simp [dayStep]
    ring

theorem foldl_dayStep_elevation (l : List SummaryActivity) :
    ∀ b, (l.foldl dayStep b).totalElevation =
      b.totalElevation + (l.map (fun a => a.totalElevGain)).sum := by
  induction l with
  | nil => intro b; simp
  | cons a l ih =>
    intro b
    rw [List.foldl_cons, ih]
    simp [dayStep]
    ring

theorem foldl_dayStep_activities (l : List SummaryActivity) :
    ∀ b, (l.foldl dayStep b).activities =
      b.activities ++ l.map (fun a => a.id) := by
  induction l with
  | nil => intro b; simp
  | cons a l ih =>
    intro b
    rw [List.foldl_cons, ih]
    simp [dayStep]

theorem foldl_dayStep_hasPR (l : List SummaryActivity) :
    ∀ b, (l.foldl dayStep b).hasPR =
      (b.hasPR || l.any (fun a => decide (0 < a.prCount))) := by
  induction l with
  | nil => intro b; simp
  | cons a l ih =>
    intro b
    rw [List.foldl_cons, ih]
    simp [dayStep, Bool.or_assoc]

theorem ite_lt_max (x y : ℚ) : (if x < y then y else x) = max x y := by
  by_cases h : x < y
  · rw [if_pos h, max_eq_right h.le]
  · rw [if_neg h, max_eq_left (not_lt.mp h)]

theorem foldl_dayStep_maxHR (l : List SummaryActivity) :
    ∀ b, (l.foldl dayStep b).maxHeartRate =
      l.foldl (fun m a => max m a.maxHeartrate) b.maxHeartRate := by
  induction l with
  | nil => intro b; rfl
  | cons a l ih =>
    intro b
    rw [List.foldl_cons, ih, List.foldl_cons]
    congr 1
    simp only [dayStep]
    exact ite_lt_max _ _

theorem typesGet_typesIncr (ts : List (String × ℕ)) (t' t : String) :
    typesGet (typesIncr ts t') t = typesGet ts t + (if t' = t then 1 else 0) := by
  induction ts with
  | nil =>
    by_cases h : t' = t <;> simp [typesIncr, typesGet, h]
  | cons p rest ih =>
    obtain ⟨s, n⟩ := p
    by_cases h1 : s = t' <;> by_cases h2 : s = t <;> by_cases h3 : t' = t <;>
      simp_all [typesIncr, typesGet] <;> omega

theorem foldl_dayStep_types (l : List SummaryActivity) :
    ∀ b t, typesGet (l.foldl dayStep b).types t =
      typesGet b.types t + l.countP (fun a => a.type = t) := by
  induction l with
  | nil => intro b t; simp
  | cons a l ih =>
    intro b t
    rw [List.foldl_cons, ih]
    have : (dayStep b a).types = typesIncr b.types a.type := rfl
    rw [this, typesGet_typesIncr, List.countP_cons]
    by_cases h : a.type = t <;> simp [h] <;> omega

/-- The weighted-mean invariant of the running heart-rate average: once
the average is positive and the count positive, folding further records
that all carry positive samples yields (old weighted sum + new samples)
over the total count. -/
theorem foldl_dayStep_avg (l : List SummaryActivity) :
    ∀ b, (∀ a ∈ l, 0 < a.averageHeartrate) → 0 < b.avgHeartRate → 0 < b.count →
      (l.foldl dayStep b).avgHeartRate =
        (b.avgHeartRate * (b.count : ℚ) + (l.map (fun a => a.averageHeartrate)).sum) /
          ((b.count : ℚ) + l.length) := by
  induction l with
  | nil =>
    intro b _ _ hc
    have : ((b.count : ℚ)) ≠ 0 := by positivity
    field_simp
  | cons a l ih =>
    intro b hpos havg hc
    have hs : 0 < a.averageHeartrate := hpos a (by simp)
    have hb1 : (dayStep b a).avgHeartRate =
        (b.avgHeartRate * (b.count : ℚ) + a.averageHeartrate) / ((b.count : ℚ) + 1) := by
      simp only [dayStep]
      rw [if_pos hs, if_neg (ne_of_gt havg)]
      push_cast
      ring_nf
    have hcq : (0 : ℚ) < (b.count : ℚ) := by exact_mod_cast hc
    have havg1 : 0 < (dayStep b a).avgHeartRate := by
      rw [hb1]
      positivity
    have hcount1 : (dayStep b a).count = b.count + 1 := rfl
    rw [List.foldl_cons, ih _ (fun x hx => hpos x (by simp [hx])) havg1 (by omega)]
    rw [hb1, hcount1]
    have hd1 : ((b.count : ℚ) + 1) ≠ 0 := by positivity
    have hd2 : ((b.count : ℚ) + 1 + (l.length : ℚ)) ≠ 0 := by positivity
    push_cast
    field_simp
    ring

/-- For a nonempty run of records all carrying positive samples, the
per-day fold produces the arithmetic mean of the samples. -/
theorem dayAgg_avg_mean (k : ℤ) (l : List SummaryActivity) (hne : l ≠ [])
    (hpos : ∀ a ∈ l, 0 < a.averageHeartrate) :
    (dayAgg k l).avgHeartRate =
      (l.map (fun a => a.averageHeartrate)).sum / (l.length : ℚ) := by
  match l, hne with
  | a :: l, _ =>
    have hs : 0 < a.averageHeartrate := hpos a (by simp)
    have hb1 : (dayStep (freshBucket k) a).avgHeartRate = a.averageHeartrate := by
      simp [dayStep, freshBucket, hs]
    have hcount1 : (dayStep (freshBucket k) a).count = 1 := rfl
    rw [dayAgg, List.foldl_cons,
      foldl_dayStep_avg l _ (fun x hx => hpos x (by simp [hx]))
        (by rw [hb1]; exact hs) (by rw [hcount1]; omega)]
    rw [hb1, hcount1]
    simp only [List.map_cons, List.sum_cons, List.length_cons]
    have hd : ((l.length : ℚ) + 1) ≠ 0 := by positivity
    push_cast
    field_simp
    left
    ring

/-! ### C3: the heart-rate running average -/

/-- C3 counterexample: the claim's formula newAvg = (oldAvg*(n-1)+sample)/n
does not govern every record carrying a positive sample.  On a day whose
first record has no heart-rate sample and whose second has sample 150, the
bucket count reaches n = 2 with oldAvg = 0, the code's zero-average branch
sets the average to 150, while the claimed formula yields 75. -/
theorem C3_counterexample :
    ((aggregate 0 [sampleAct 1 0 0 0, sampleAct 2 60 150 160]) 0).map
        (fun b => b.avgHeartRate) = some 150 ∧
    ((0 : ℚ) * ((2 : ℚ) - 1) + 150) / 2 = 75 ∧ (150 : ℚ) ≠ 75 := by
  refine ⟨rfl, by norm_num, by norm_num⟩

/-- C3 amended: a record without a positive sample leaves the average
unchanged; a record with a positive sample sets the average to the sample
when the stored average is zero (the first-sample branch) and otherwise
applies newAvg = (oldAvg*(n-1)+sample)/n with n the updated bucket count;
max heart rate is a running maximum; consequently, when all same-day
records carry positive samples, the resulting average is exactly the
arithmetic mean of the samples, identical across permutations. -/
theorem C3_amended :
    (∀ b a, ¬(0 < a.averageHeartrate) → (dayStep b a).avgHeartRate = b.avgHeartRate) ∧
    (∀ b a, (dayStep b a).maxHeartRate = max b.maxHeartRate a.maxHeartrate) ∧
    (∀ b a, 0 < a.averageHeartrate → b.avgHeartRate = 0 →
      (dayStep b a).avgHeartRate = a.averageHeartrate) ∧
    (∀ b a, 0 < a.averageHeartrate → b.avgHeartRate ≠ 0 →
      (dayStep b a).avgHeartRate =
        (b.avgHeartRate * (((b.count : ℚ) + 1) - 1) + a.averageHeartrate) /
          ((b.count : ℚ) + 1)) ∧
    (∀ (off k : ℤ) (acts : List SummaryActivity), acts ≠ [] →
      (∀ a ∈ acts, localDay off a.startDate = k) →
      (∀ a ∈ acts, 0 < a.averageHeartrate) →
      ∃ b, aggregate off acts k = some b ∧
        b.avgHeartRate = (acts.map (fun a => a.averageHeartrate)).sum / (acts.length : ℚ)) ∧
    (∀ (off k : ℤ) (acts acts' : List SummaryActivity), acts.Perm acts' → acts ≠ [] →
      (∀ a ∈ acts, localDay off a.startDate = k) →
      (∀ a ∈ acts, 0 < a.averageHeartrate) →
      ((aggregate off acts k).map (fun b => b.avgHeartRate) =
        (aggregate off acts' k).map (fun b => b.avgHeartRate))) := by
  have key : ∀ (off k : ℤ) (acts : List SummaryActivity), acts ≠ [] →
      (∀ a ∈ acts, localDay off a.startDate = k) →
      (∀ a ∈ acts, 0 < a.averageHeartrate) →
      ∃ b, aggregate off acts k = some b ∧
        b.avgHeartRate = (acts.map (fun a => a.averageHeartrate)).sum / (acts.length : ℚ) := by
    intro off k acts hne hkey hpos
    have hfilter : acts.filter (fun a => localDay off a.startDate = k) = acts :=
      List.filter_eq_self.mpr (fun a ha => by simpa using hkey a ha)
    rw [aggregate_lookup, hfilter, if_neg hne]
    exact ⟨dayAgg k acts, rfl, dayAgg_avg_mean k acts hne hpos⟩
  refine ⟨?_, ?_, ?_, ?_, key, ?_⟩
  · intro b a h
    simp [dayStep, h]
  · intro b a
    simpa [dayStep] using ite_lt_max b.maxHeartRate a.maxHeartrate
  · intro b a hs hz
    simp [dayStep, hs, hz]
  · intro b a hs hz
    simp only [dayStep]
    rw [if_pos hs, if_neg hz]
    push_cast
    ring_nf
  · intro off k acts acts' hperm hne hkey hpos
    have hne' : acts' ≠ [] := by
      intro h
      exact hne (List.Perm.eq_nil (h ▸ hperm))
    have hkey' : ∀ a ∈ acts', localDay off a.startDate = k :=
      fun a ha => hkey a (hperm.mem_iff.mpr ha)
    have hpos' : ∀ a ∈ acts', 0 < a.averageHeartrate :=
      fun a ha => hpos a (hperm.mem_iff.mpr ha)
    obtain ⟨b1, hb1, he1⟩ := key off k acts hne hkey hpos
    obtain ⟨b2, hb2, he2⟩ := key off k acts' hne' hkey' hpos'
    rw [hb1, hb2]
    simp only [Option.map]
    rw [he1, he2, (hperm.map (fun a => a.averageHeartrate)).sum_eq, hperm.length_eq]

/-- C3 witness: two same-day records with samples 100 and 200 average to
150 in either order. -/
theorem C3_witness :
    ∃ b, aggregate 0 [sampleAct 1 0 100 110, sampleAct 2 60 200 210] 0 = some b ∧
      b.avgHeartRate =
        (([sampleAct 1 0 100 110, sampleAct 2 60 200 210].map
          (fun a => a.averageHeartrate)).sum : ℚ) / 2 :=
  C3_amended.2.2.2.2.1 0 0 [sampleAct 1 0 100 110, sampleAct 2 60 200 210]
    (by decide) (by decide) (by decide)

/-! ### C4: range filling and order independence -/

instance instMaxHRRightComm :
    RightCommutative (fun (m : ℚ) (a : SummaryActivity) => max m a.maxHeartrate) :=
  ⟨fun b a1 a2 => by
    rw [max_assoc, max_comm a1.maxHeartrate, ← max_assoc]⟩

theorem any_of_perm {α : Type} (p : α → Bool) {l l' : List α} (h : l.Perm l') :
    l.any p = l'.any p := by
  rcases hb : l'.any p with _ | _
  · rcases hc : l.any p with _ | _
    · rfl
    · obtain ⟨x, hx, hpx⟩ := List.any_eq_true.mp hc
      have : l'.any p = true := List.any_eq_true.mpr ⟨x, h.mem_iff.mp hx, hpx⟩
      rw [this] at hb
      exact hb
  · obtain ⟨x, hx, hpx⟩ := List.any_eq_true.mp hb
    exact List.any_eq_true.mpr ⟨x, h.mem_iff.mpr hx, hpx⟩

/-- The range-filled bucket sequence is exactly the per-day folds of the
filtered record lists, one per day of the range in order. -/
theorem getOrderedDates_aggregate (off : ℤ) (acts : List SummaryActivity)
    (startD endD : ℤ) :
    getOrderedDates (aggregate off acts) startD endD =
      (List.range (endD - startD + 1).toNat).map
        (fun (i : ℕ) => dayAgg (startD + (i : ℤ))
          (acts.filter (fun a => localDay off a.startDate = startD + (i : ℤ)))) := by
  rw [getOrderedDates]
  have hraw : (List.range (endD - startD + 1).toNat).map (fun (i : ℕ) =>
      match aggregate off acts (startD + (i : ℤ)) with
      | some b => b
      | none => emptyDay (startD + (i : ℤ))) =
    (List.range (endD - startD + 1).toNat).map
      (fun (i : ℕ) => dayAgg (startD + (i : ℤ))
        (acts.filter (fun a => localDay off a.startDate = startD + (i : ℤ)))) := by
    apply List.map_congr_left
    intro i _
    rw [aggregate_lookup]
    by_cases hf : acts.filter (fun a => localDay off a.startDate = startD + (i : ℤ)) = []
    · rw [if_pos hf, hf]
      rfl
    · rw [if_neg hf]
  rw [hraw]
  apply List.Sorted.insertionSort_eq
  rw [List.Sorted, List.pairwise_map]
  have := List.pairwise_lt_range (endD - startD + 1).toNat
  apply this.imp
  intro i j hij
  rw [dayAgg_date, dayAgg_date]
  omega

theorem getOrderedDates_aggregate_getD (off : ℤ) (acts : List SummaryActivity)
    (startD endD : ℤ) (i : ℕ) (hi : i < (endD - startD + 1).toNat) :
    (getOrderedDates (aggregate off acts) startD endD).getD i (emptyDay 0) =
      dayAgg (startD + (i : ℤ))
        (acts.filter (fun a => localDay off a.startDate = startD + (i : ℤ))) := by
  rw [getOrderedDates_aggregate, List.getD_eq_getElem?_getD, List.getElem?_map,
    List.getElem?_range hi]
  rfl

/-- C4 counterexample: swapping two same-day records changes the bucket
(the contributing-activity id list becomes [2, 1] instead of [1, 2]), so
the resulting bucket multiset differs between the two input orders. -/
theorem C4_counterexample :
    ¬ (((getOrderedDates (aggregate 0 [sampleAct 1 0 0 0, sampleAct 2 60 0 0]) 0 0 :
          List DailyActivity) : Multiset DailyActivity) =
       ((getOrderedDates (aggregate 0 [sampleAct 2 60 0 0, sampleAct 1 0 0 0]) 0 0 :
          List DailyActivity) : Multiset DailyActivity)) := by
  intro heq
  have h1 : getOrderedDates (aggregate 0 [sampleAct 1 0 0 0, sampleAct 2 60 0 0]) 0 0 =
      [dayAgg 0 [sampleAct 1 0 0 0, sampleAct 2 60 0 0]] := rfl
  have h2 : getOrderedDates (aggregate 0 [sampleAct 2 60 0 0, sampleAct 1 0 0 0]) 0 0 =
      [dayAgg 0 [sampleAct 2 60 0 0, sampleAct 1 0 0 0]] := rfl
  rw [h1, h2, Multiset.coe_eq_coe, List.perm_singleton, List.singleton_inj] at heq
  have hact := congrArg DailyActivity.activities heq
  rw [dayAgg, dayAgg, foldl_dayStep_activities, foldl_dayStep_activities] at hact
  simp [freshBucket, sampleAct] at hact

/-- C4 amended: aggregation plus range filling produces exactly one bucket
per day of [start, end] in date order, the bucket of each day being the
fold of exactly that day's records (an empty placeholder when there are
none); for any permutation of the input records the buckets agree on
date, count, distance, duration, elevation, PR flag, max heart rate and
on every per-type count — though not necessarily on the contributing-id
list order or (for days mixing records with and without heart-rate
samples) the average heart rate. -/
theorem C4_amended (off : ℤ) (acts : List SummaryActivity) (startD endD : ℤ) :
    (getOrderedDates (aggregate off acts) startD endD).length =
      (endD - startD + 1).toNat ∧
    (getOrderedDates (aggregate off acts) startD endD).map (fun b => b.date) =
      (List.range (endD - startD + 1).toNat).map (fun (i : ℕ) => startD + (i : ℤ)) ∧
    (∀ i, i < (endD - startD + 1).toNat →
      (getOrderedDates (aggregate off acts) startD endD).getD i (emptyDay 0) =
        dayAgg (startD + (i : ℤ))
          (acts.filter (fun a => localDay off a.startDate = startD + (i : ℤ)))) ∧
    (∀ (acts' : List SummaryActivity), acts.Perm acts' →
      ∀ i, i < (endD - startD + 1).toNat →
        bucketCore ((getOrderedDates (aggregate off acts) startD endD).getD i (emptyDay 0)) =
          bucketCore ((getOrderedDates (aggregate off acts') startD endD).getD i (emptyDay 0)) ∧
        (∀ t, typesGet
            ((getOrderedDates (aggregate off acts) startD endD).getD i (emptyDay 0)).types t =
          typesGet
            ((getOrderedDates (aggregate off acts') startD endD).getD i (emptyDay 0)).types t)) := by
  refine ⟨?_, ?_, ?_, ?_⟩
  · rw [getOrderedDates_aggregate, List.length_map, List.length_range]
  · rw [getOrderedDates_aggregate, List.map_map]
    apply List.map_congr_left
    intro i _
    simp [dayAgg_date]
  · intro i hi
    exact getOrderedDates_aggregate_getD off acts startD endD i hi
  · intro acts' hperm i hi
    rw [getOrderedDates_aggregate_getD off acts startD endD i hi,
      getOrderedDates_aggregate_getD off acts' startD endD i hi]
    have hfp : (acts.filter (fun a => localDay off a.startDate = startD + (i : ℤ))).Perm
        (acts'.filter (fun a => localDay off a.startDate = startD + (i : ℤ))) :=
      hperm.filter _
    constructor
    · simp only [bucketCore, dayAgg, Prod.mk.injEq]
      refine ⟨?_, ?_, ?_, ?_, ?_, ?_, ?_⟩
      · rw [foldl_dayStep_date, foldl_dayStep_date]
      · rw [foldl_dayStep_count, foldl_dayStep_count, hfp.length_eq]
      · rw [foldl_dayStep_distance, foldl_dayStep_distance,
          (hfp.map (fun a => a.distance)).sum_eq]
      · rw [foldl_dayStep_duration, foldl_dayStep_duration,
          (hfp.map (fun a => a.movingTime)).sum_eq]
      · rw [foldl_dayStep_elevation, foldl_dayStep_elevation,
          (hfp.map (fun a => a.totalElevGain)).sum_eq]
      · rw [foldl_dayStep_hasPR, foldl_dayStep_hasPR,
          any_of_perm (fun a => decide (0 < a.prCount)) hfp]
      · rw [foldl_dayStep_maxHR, foldl_dayStep_maxHR, hfp.foldl_eq]
    · intro t
      rw [dayAgg, dayAgg, foldl_dayStep_types, foldl_dayStep_types,
        hfp.countP_eq]

/-- C4 witness: a concrete one-day range with two swapped same-day
records; the order-independent projections of the buckets agree. -/
theorem C4_witness :
    bucketCore ((getOrderedDates (aggregate 0 [sampleAct 1 0 0 0, sampleAct 2 60 0 0]) 0 0).getD
      0 (emptyDay 0)) =
    bucketCore ((getOrderedDates (aggregate 0 [sampleAct 2 60 0 0, sampleAct 1 0 0 0]) 0 0).getD
      0 (emptyDay 0)) :=
  ((C4_amended 0 [sampleAct 1 0 0 0, sampleAct 2 60 0 0] 0 0).2.2.2
    [sampleAct 2 60 0 0, sampleAct 1 0 0 0] (List.Perm.swap _ _ _) 0 (by decide)).1

/-! ### C5: grid size and padding -/

theorem weekdayOf_bounds (z : ℤ) : 0 ≤ weekdayOf z ∧ weekdayOf z < 7 := by
  unfold weekdayOf
  omega

theorem dayOffset_bounds (ws : String) (z : ℤ) :
    0 ≤ dayOffset ws (weekdayOf z) ∧ dayOffset ws (weekdayOf z) ≤ 6 := by
  have h := weekdayOf_bounds z
  unfold dayOffset
  split_ifs <;> omega

/-- The padded span of the grid is always a whole number of weeks. -/
theorem grid_total_div7 (ws : String) (s e : ℤ) :
    (7 : ℤ) ∣ ((e - s + 1) + dayOffset ws (weekdayOf s) +
      (6 - dayOffset ws (weekdayOf e))) := by
  unfold dayOffset weekdayOf
  split_ifs <;> omega

theorem weeks_arith (T : ℤ) (hT : 1 ≤ T) (hdvd : 7 ∣ T) :
    (if 0 < Int.tmod T 7 then Int.tdiv T 7 + 1 else Int.tdiv T 7) * 7 = T ∧
    1 ≤ (if 0 < Int.tmod T 7 then Int.tdiv T 7 + 1 else Int.tdiv T 7) := by
  rw [Int.tdiv_eq_ediv (by omega) (by omega), Int.tmod_eq_emod (by omega) (by omega)]
  split_ifs with h <;> constructor <;> omega

theorem totalWeeksFor_eq (ws : String) (s e : ℤ) (hse : s ≤ e) :
    (totalWeeksFor s e ws) * 7 = (e - s + 1) + dayOffset ws (weekdayOf s) +
      (6 - dayOffset ws (weekdayOf e)) ∧ 1 ≤ totalWeeksFor s e ws := by
  have hso := dayOffset_bounds ws s
  have heo := dayOffset_bounds ws e
  exact weeks_arith _ (by omega) (grid_total_div7 ws s e)

theorem mkCell_date (acts : List DailyActivity) (mt : String) (d : ℤ) :
    (mkCell acts mt d).date = d := by
  unfold mkCell
  cases activityMapGet acts d with
  | none => rfl
  | some a =>
    by_cases h : 0 < a.count <;> simp [h]

theorem flatten_grid_map {α : Type} (f : ℕ → α) (n : ℕ) :
    ((List.range n).map (fun w => (List.range 7).map (fun d => f (7 * w + d)))).flatten =
      (List.range (7 * n)).map f := by
  induction n with
  | zero => simp
  | succ n ih =>
    have hrs : List.range (n + 1) = List.range n ++ [n] := List.range_succ n
    rw [hrs, List.map_append, List.flatten_append, ih]
    have h7 : 7 * (n + 1) = 7 * n + 7 := by ring
    rw [h7, List.range_add, List.map_append, List.map_map]
    simp [Function.comp]

theorem createGridCells_flatten (acts : List DailyActivity) (mt : String)
    (s e : ℤ) (ws : String) :
    (createGridCells acts mt s e ws).flatten =
      (List.range (7 * (totalWeeksFor s e ws).toNat)).map
        (fun (i : ℕ) => mkCell acts mt (s - dayOffset ws (weekdayOf s) + (i : ℤ))) := by
  rw [createGridCells]
  rw [List.map_congr_left (f := fun (w : ℕ) => (List.range 7).map
      (fun (d : ℕ) => mkCell acts mt (s - dayOffset ws (weekdayOf s) + 7 * (w : ℤ) + (d : ℤ))))
    (g := fun (w : ℕ) => (List.range 7).map (fun (d : ℕ) =>
      (fun (i : ℕ) => mkCell acts mt (s - dayOffset ws (weekdayOf s) + (i : ℤ))) (7 * w + d)))
    (by
      intro w _
      apply List.map_congr_left
      intro d _
      congr 1
      push_cast
      ring)]
  exact flatten_grid_map
    (fun (i : ℕ) => mkCell acts mt (s - dayOffset ws (weekdayOf s) + (i : ℤ)))
    (totalWeeksFor s e ws).toNat

theorem countP_range_lt (N m : ℕ) :
    (List.range N).countP (fun i => decide (i < m)) = min m N := by
  induction N with
  | zero => simp
  | succ N ih =>
    rw [List.range_succ, List.countP_append, ih]
    by_cases h : N < m <;> simp [List.countP_cons, h] <;> omega

theorem countP_range_ge (N m : ℕ) :
    (List.range N).countP (fun i => decide (m ≤ i)) = N - min m N := by
  induction N with
  | zero => simp
  | succ N ih =>
    rw [List.range_succ, List.countP_append, ih]
    by_cases h : m ≤ N <;> simp [List.countP_cons, h] <;> omega

/-- C5: the grid has exactly (daysInRange + leadingPad + trailingPad) / 7
weeks — the code's rounded-up division, which is exact because the padded
span is week-aligned — of exactly 7 day-slots each, with exactly
leadingPad cells dated before the range start and exactly trailingPad
cells dated after the range end. -/
theorem C5_grid (acts : List DailyActivity) (metricType : String) (startD endD : ℤ)
    (weekStart : String) (hse : startD ≤ endD) :
    ((createGridCells acts metricType startD endD weekStart).length : ℤ) =
      totalWeeksFor startD endD weekStart ∧
    (∀ wk ∈ createGridCells acts metricType startD endD weekStart, wk.length = 7) ∧
    ((createGridCells acts metricType startD endD weekStart).length : ℤ) * 7 =
      (endD - startD + 1) + dayOffset weekStart (weekdayOf startD) +
        (6 - dayOffset weekStart (weekdayOf endD)) ∧
    (((createGridCells acts metricType startD endD weekStart).flatten.filter
      (fun c => decide (c.date < startD))).length : ℤ) =
      dayOffset weekStart (weekdayOf startD) ∧
    (((createGridCells acts metricType startD endD weekStart).flatten.filter
      (fun c => decide (endD < c.date))).length : ℤ) =
      6 - dayOffset weekStart (weekdayOf endD) := by
  obtain ⟨htw, htw1⟩ := totalWeeksFor_eq weekStart startD endD hse
  have hso := dayOffset_bounds weekStart startD
  have heo := dayOffset_bounds weekStart endD
  have hlen : ((createGridCells acts metricType startD endD weekStart).length : ℤ) =
      totalWeeksFor startD endD weekStart := by
    rw [createGridCells]
    simp only [List.length_map, List.length_range]
    omega
  have hN : 7 * (totalWeeksFor startD endD weekStart).toNat =
      ((endD - startD + 1) + dayOffset weekStart (weekdayOf startD) +
        (6 - dayOffset weekStart (weekdayOf endD))).toNat := by omega
  refine ⟨hlen, ?_, by rw [hlen]; omega, ?_, ?_⟩
  · intro wk hwk
    rw [createGridCells] at hwk
    obtain ⟨w, _, rfl⟩ := List.mem_map.mp hwk
    simp
  · rw [createGridCells_flatten, List.filter_map, List.length_map,
      ← List.countP_eq_length_filter,
      List.countP_congr (q := fun i =>
        decide (i < (dayOffset weekStart (weekdayOf startD)).toNat))
        (fun i _ => by
          simp only [Function.comp_apply, mkCell_date, decide_eq_true_eq]
          omega),
      countP_range_lt]
    omega
  · rw [createGridCells_flatten, List.filter_map, List.length_map,
      ← List.countP_eq_length_filter,
      List.countP_congr (q := fun i =>
        decide (((endD - startD + 1) + dayOffset weekStart (weekdayOf startD)).toNat ≤ i))
        (fun i _ => by
          simp only [Function.comp_apply, mkCell_date, decide_eq_true_eq]
          omega),
      countP_range_ge]
    omega

/-- C5 witness: the 10-day range from Wednesday 1970-01-07 (day 6) to
Friday 1970-01-16 (day 15) with week start Monday: 2 weeks of 7 slots,
2 leading pad cells and 2 trailing pad cells. -/
theorem C5_witness :
    (createGridCells [] "distance" 6 15 "Monday").length = 2 ∧
    (∀ wk ∈ createGridCells [] "distance" 6 15 "Monday", wk.length = 7) ∧
    ((createGridCells [] "distance" 6 15 "Monday").flatten.filter
      (fun c => decide (c.date < 6))).length = 2 ∧
    ((createGridCells [] "distance" 6 15 "Monday").flatten.filter
      (fun c => decide ((15 : ℤ) < c.date))).length = 2 := by
  have h := C5_grid [] "distance" 6 15 "Monday" (by norm_num)
  have htw : totalWeeksFor 6 15 "Monday" = 2 := by decide
  have hso : dayOffset "Monday" (weekdayOf 6) = 2 := by decide
  have heo : (6 : ℤ) - dayOffset "Monday" (weekdayOf 15) = 2 := by decide
  refine ⟨?_, h.2.1, ?_, ?_⟩
  · have := h.1
    rw [htw] at this
    exact_mod_cast this
  · have := h.2.2.2.1
    rw [hso] at this
    exact_mod_cast this
  · have := h.2.2.2.2
    rw [heo] at this
    exact_mod_cast this

/-! ### C6: month label generation -/

theorem month_pos (z : ℤ) : 1 ≤ monthOf z := by
  unfold monthOf civilFromDays
  dsimp only
  split_ifs <;> omega

theorem weekNewMonth_eq (cur : ℤ) (wk : List HeatmapCell) :
    weekNewMonth cur wk =
      (wk.map (fun c => (monthOf c.date : ℤ))).find? (fun m => m ≠ cur) := by
  induction wk with
  | nil => rfl
  | cons c rest ih =>
    rw [weekNewMonth, List.map_cons, List.find?_cons]
    by_cases h : (monthOf c.date : ℤ) ≠ cur
    · simp [h]
    · simp only [h, if_false, ih]
      simp only [Decidable.not_not] at h
      simp [h]

theorem monthLabelsAux_spec (cells : List (List HeatmapCell)) :
    ∀ (cur : ℤ) (w : ℕ) (acc : List (String × ℕ)),
      ((List.enumFrom w cells).foldl (fun st wp =>
        match (wp.2.map (fun c => (monthOf c.date : ℤ))).find? (fun m => m ≠ st.1) with
        | some m => (m, st.2 ++ [(monthNames3.getD m.toNat "", wp.1)])
        | none => st) (cur, acc)).2 = acc ++ monthLabelsAux cur w cells := by
  induction cells with
  | nil => intro cur w acc; simp [monthLabelsAux]
  | cons wk rest ih =>
    intro cur w acc
    rw [List.enumFrom_cons, List.foldl_cons, monthLabelsAux, ← weekNewMonth_eq]
    cases h : weekNewMonth cur wk with
    | some m =>
      simp only [h]
      rw [ih]
      simp
    | none =>
      simp only [h]
      exact ih cur (w + 1) acc

/-- C6 counterexample: for the six-day range 1970-01-01 .. 1970-01-06 with
week start Monday, the grid's leading pad cells fall in December 1969;
generateLabels emits a label for December — the very first month observed,
which the claim says is suppressed — and attaches January to week 1, even
though January first appears (at day 3 of week 0) in week 0. -/
theorem C6_counterexample :
    generateMonthLabels (createGridCells [] "distance" 0 5 "Monday") =
      [("Dec", 0), ("Jan", 1)] ∧
    ("Dec", 0) ∈ generateMonthLabels (createGridCells [] "distance" 0 5 "Monday") ∧
    ("Jan", 0) ∉ generateMonthLabels (createGridCells [] "distance" 0 5 "Monday") := by
  refine ⟨by decide, by decide, by decide⟩

/-- C6 amended: generateLabels scans the grid week by week (not cell by
cell): in each week it finds the first cell whose month differs from the
most recently recorded month (initially -1) and, if found, emits exactly
one label attached to that week's index.  The very first month observed
does receive a label, at week 0 (the suppression of the first month
happens later, in writeMonthLabels). -/
theorem C6_amended :
    (∀ cells, generateMonthLabels cells = monthLabelsSpec cells) ∧
    (∀ (c : HeatmapCell) (wk : List HeatmapCell) (rest : List (List HeatmapCell)),
      (generateMonthLabels ((c :: wk) :: rest)).head? =
        some (monthNames3.getD (monthOf c.date) "", 0)) := by
  constructor
  · intro cells
    rw [generateMonthLabels, monthLabelsSpec,
      show cells.enum = List.enumFrom 0 cells from rfl,
      monthLabelsAux_spec cells (-1) 0 []]
    simp
  · intro c wk rest
    have hm : weekNewMonth (-1) (c :: wk) = some ((monthOf c.date : ℤ)) := by
      have h1 := month_pos c.date
      rw [weekNewMonth, if_pos (by omega)]
    rw [generateMonthLabels, monthLabelsAux, hm]
    simp

/-! ### C8: canvas dimensions — decimal rendering and scanning lemmas -/

theorem digitVal_digitChar {n : ℕ} (h : n < 10) : digitVal (digitChar n) = n := by
  interval_cases n <;> decide

theorem isDigitCh_digitChar {n : ℕ} (h : n < 10) : isDigitCh (digitChar n) = true := by
  interval_cases n <;> decide

theorem natChars_ne_nil (n : ℕ) : natChars n ≠ [] := by
  rw [natChars]
  split_ifs <;> simp

theorem natChars_all_digits (n : ℕ) : ∀ c ∈ natChars n, isDigitCh c = true := by
  induction n using Nat.strong_induction_on with
  | _ n ih =>
    rw [natChars]
    split_ifs with h
    · intro c hc
      rw [List.mem_singleton] at hc
      rw [hc]
      exact isDigitCh_digitChar h
    · intro c hc
      rw [List.mem_append] at hc
      rcases hc with hc | hc
      · exact ih (n / 10) (Nat.div_lt_self (by omega) (by omega)) c hc
      · rw [List.mem_singleton] at hc
        rw [hc]
        exact isDigitCh_digitChar (Nat.mod_lt _ (by omega))

theorem digitsVal_append_singleton (xs : List Char) (c : Char) :
    digitsVal (xs ++ [c]) = 10 * digitsVal xs + digitVal c := by
  rw [digitsVal, List.foldl_append]
  rfl

theorem digitsVal_natChars (n : ℕ) : digitsVal (natChars n) = n := by
  induction n using Nat.strong_induction_on with
  | _ n ih =>
    rw [natChars]
    split_ifs with h
    · show digitsVal [digitChar n] = n
      rw [digitsVal]
      simp [digitVal_digitChar h]
    · rw [digitsVal_append_singleton,
        ih (n / 10) (Nat.div_lt_self (by omega) (by omega)),
        digitVal_digitChar (Nat.mod_lt _ (by omega))]
      omega

theorem leadsWith_self_append (p t : List Char) : leadsWith p (p ++ t) = true := by
  induction p with
  | nil => rfl
  | cons c p ih => simp [leadsWith, ih]

theorem takeWhile_all_append {p : Char → Bool} {ds : List Char} (x : Char)
    (r : List Char) (hds : ∀ c ∈ ds, p c = true) (hx : p x = false) :
    (ds ++ x :: r).takeWhile p = ds := by
  induction ds with
  | nil => simp [List.takeWhile_cons, hx]
  | cons c ds ih =>
    rw [List.cons_append, List.takeWhile_cons, hds c (by simp)]
    rw [ih (fun c hc => hds c (by simp [hc]))]
    simp

theorem scan_cons_head_ne {l0 : Char} {lit : List Char} {c : Char} {s : List Char}
    (h : l0 ≠ c) : scanNumAfter (l0 :: lit) (c :: s) = scanNumAfter (l0 :: lit) s := by
  rw [scanNumAfter]
  simp [leadsWith, h]

theorem scan_cons2_ne {l0 l1 : Char} {lit : List Char} {c0 c1 : Char} {s : List Char}
    (h : l1 ≠ c1) :
    scanNumAfter (l0 :: l1 :: lit) (c0 :: c1 :: s) =
      scanNumAfter (l0 :: l1 :: lit) (c1 :: s) := by
  rw [scanNumAfter]
  simp [leadsWith, h]

theorem scan_skip_digits {l0 : Char} {lit : List Char} (hl0 : isDigitCh l0 = false)
    {ds : List Char} (hds : ∀ c ∈ ds, isDigitCh c = true) (s : List Char) :
    scanNumAfter (l0 :: lit) (ds ++ s) = scanNumAfter (l0 :: lit) s := by
  induction ds with
  | nil => rfl
  | cons c ds ih =>
    rw [List.cons_append, scan_cons_head_ne (fun he => by
      rw [he, hds c (by simp)] at hl0
      exact Bool.false_ne_true hl0.symm)]
    exact ih (fun c hc => hds c (by simp [hc]))

theorem scan_hit (l0 : Char) (lit ds rest : List Char)
    (hds : ∀ c ∈ ds, isDigitCh c = true) (hne : ds ≠ []) :
    scanNumAfter (l0 :: lit) ((l0 :: lit) ++ (ds ++ '"' :: rest)) =
      some (digitsVal ds) := by
  rw [List.cons_append, scanNumAfter]
  rw [if_pos (by
    rw [← List.cons_append]
    exact leadsWith_self_append (l0 :: lit) _)]
  have hdrop : ((l0 :: lit) ++ (ds ++ '"' :: rest)).drop (l0 :: lit).length =
      ds ++ '"' :: rest := List.drop_left _ _
  rw [← List.cons_append, hdrop]
  dsimp only
  rw [takeWhile_all_append '"' rest hds (by decide)]
  rw [if_pos (by
    rw [List.drop_left]
    simp [hne])]

theorem intStr_data_of_pos {w : ℤ} (hw : 0 < w) : (intStr w).data = natChars w.toNat := by
  rw [intStr, if_neg (by omega)]
  rfl

/-- Character-level decomposition of the SVG root element opening
followed by an arbitrary remainder of the document. -/
theorem svgHeader_data (w h : ℤ) (hw : 0 < w) (hh : 0 < h) (t : List Char) :
    (svgHeader w h).data ++ t =
      '<' :: 's' :: 'v' :: 'g' :: ' ' :: 'w' :: 'i' :: 'd' :: 't' :: 'h' :: '=' :: '"' ::
        (natChars w.toNat ++ ('"' :: ' ' :: 'h' :: 'e' :: 'i' :: 'g' :: 'h' :: 't' :: '=' :: '"' ::
          (natChars h.toNat ++ ('"' ::
            ((" viewBox=\"0 0 ").data ++ (natChars w.toNat ++ (' ' ::
              (natChars h.toNat ++ (("\" xmlns=\"http://www.w3.org/2000/svg\">").data ++
                t))))))))) := by
  rw [svgHeader]
  simp only [String.data_append, intStr_data_of_pos hw, intStr_data_of_pos hh,
    List.append_assoc]
  rfl

/-- Leftmost width="(\d+)" match of any document starting with the SVG
root element opening. -/
theorem scan_width_header (w h : ℤ) (hw : 0 < w) (hh : 0 < h) (t : List Char) :
    scanNumAfter ("width=\"").data ((svgHeader w h).data ++ t) = some w.toNat := by
  rw [svgHeader_data w h hw hh t]
  show scanNumAfter ('w' :: 'i' :: 'd' :: 't' :: 'h' :: '=' :: '"' :: []) _ = some w.toNat
  rw [scan_cons_head_ne (by decide), scan_cons_head_ne (by decide),
    scan_cons_head_ne (by decide), scan_cons_head_ne (by decide),
    scan_cons_head_ne (by decide)]
  have := scan_hit 'w' ['i', 'd', 't', 'h', '=', '"'] (natChars w.toNat)
    (' ' :: 'h' :: 'e' :: 'i' :: 'g' :: 'h' :: 't' :: '=' :: '"' ::
      (natChars h.toNat ++ ('"' ::
        ((" viewBox=\"0 0 ").data ++ (natChars w.toNat ++ (' ' ::
          (natChars h.toNat ++ (("\" xmlns=\"http://www.w3.org/2000/svg\">").data ++ t))))))))
    (natChars_all_digits _) (natChars_ne_nil _)
  rw [digitsVal_natChars] at this
  exact this

/-- Leftmost height="(\d+)" match of any document starting with the SVG
root element opening. -/
theorem scan_height_header (w h : ℤ) (hw : 0 < w) (hh : 0 < h) (t : List Char) :
    scanNumAfter ("height=\"").data ((svgHeader w h).data ++ t) = some h.toNat := by
  rw [svgHeader_data w h hw hh t]
  show scanNumAfter ('h' :: 'e' :: 'i' :: 'g' :: 'h' :: 't' :: '=' :: '"' :: []) _ = some h.toNat
  rw [scan_cons_head_ne (by decide), scan_cons_head_ne (by decide),
    scan_cons_head_ne (by decide), scan_cons_head_ne (by decide),
    scan_cons_head_ne (by decide), scan_cons_head_ne (by decide),
    scan_cons_head_ne (by decide), scan_cons_head_ne (by decide),
    scan_cons_head_ne (by decide), scan_cons2_ne (by decide),
    scan_cons_head_ne (by decide), scan_cons_head_ne (by decide),
    scan_skip_digits (by decide) (natChars_all_digits w.toNat),
    scan_cons_head_ne (by decide), scan_cons_head_ne (by decide)]
  have := scan_hit 'h' ['e', 'i', 'g', 'h', 't', '=', '"'] (natChars h.toNat)
    ((" viewBox=\"0 0 ").data ++ (natChars w.toNat ++ (' ' ::
      (natChars h.toNat ++ (("\" xmlns=\"http://www.w3.org/2000/svg\">").data ++ t)))))
    (natChars_all_digits _) (natChars_ne_nil _)
  rw [digitsVal_natChars] at this
  exact this

/-- extractSVGDimensions of any document that starts with the SVG root
element opening reads exactly that header's width and height. -/
theorem extractSVGDimensions_header {w h : ℤ} (hw : 0 < w) (hh : 0 < h)
    (s : String) (t : List Char) (hdata : s.data = (svgHeader w h).data ++ t) :
    extractSVGDimensions s = (w, h) := by
  rw [extractSVGDimensions, hdata, scan_width_header w h hw hh t,
    scan_height_header w h hw hh t]
  simp only [Option.getD_some]
  rw [Prod.mk.injEq]
  omega

/-- Any document that starts with the SVG root element opening passes the
strings.HasPrefix "<svg" sanity check of GenerateHeatmap. -/
theorem leadsWith_svg_header {w h : ℤ} (s : String) (t : List Char)
    (hdata : s.data = (svgHeader w h).data ++ t) :
    leadsWith "<svg".data s.data = true := by
  rw [hdata, svgHeader]
  show leadsWith ('<' :: 's' :: 'v' :: 'g' :: []) _ = true
  simp only [String.data_append, List.append_assoc, List.cons_append]
  rfl

theorem buildHeatmapData_cellSize (activities : List DailyActivity) (startD endD : ℤ)
    (colorScheme : String) (customColors darkModeColors : List String)
    (cellSize : ℤ) (weekStart : String) (darkModeSupport : Bool) (metricType : String) :
    5 ≤ (buildHeatmapData activities startD endD colorScheme customColors darkModeColors
      cellSize weekStart darkModeSupport metricType).cellSize := by
  have hpr : (buildHeatmapData activities startD endD colorScheme customColors darkModeColors
      cellSize weekStart darkModeSupport metricType).cellSize =
      if cellSize < 5 then 11 else cellSize := rfl
  rw [hpr]
  split <;> omega

theorem renderTotalWidth_pos (h : HeatmapData) (hc : 5 ≤ h.cellSize) :
    0 < renderTotalWidth h := by
  have h0 : (0:ℤ) ≤ (h.cells.length : ℤ) * (h.cellSize + 4) :=
    mul_nonneg (Int.natCast_nonneg _) (by omega)
  unfold renderTotalWidth
  omega

theorem renderTotalHeight_pos (h : HeatmapData) (hc : 5 ≤ h.cellSize) :
    0 < renderTotalHeight h := by
  unfold renderTotalHeight
  omega

theorem renderSVG_decomp (mapEnum : List (String × ℕ) → List (String × ℕ))
    (h : HeatmapData) :
    ∃ t, (renderSVG mapEnum h).data =
      (svgHeader (renderTotalWidth h) (renderTotalHeight h)).data ++ t := by
  refine ⟨(writeStyle h.colorTheme h.darkModeTheme h.darkModeSupport ++
    writeMonthLabels mapEnum h.cells h.cellSize 4 ++ writeWeekLabelsStr ++
    writeCells h.cells h.cellSize 4 h.weekStart (renderTotalWidth h) h.startDate h.endDate ++
    writeLegend h.cellSize 4 (renderTotalWidth h) ++ "</svg>").data, ?_⟩
  simp only [renderSVG, String.data_append, List.append_assoc]

theorem statsSVG_decomp (dm : Bool) (ov : ActivityStats) :
    ∃ t, (generateStatsSVG dm ov).data = (svgHeader 300 200).data ++ t := by
  refine ⟨(statsStyleBase ++ (if dm then statsStyleDark else "") ++ "\n</style>" ++
    "<rect x=\"0\" y=\"0\" width=\"300\" height=\"200\" class=\"stats-panel\" />" ++
    "<text x=\"15\" y=\"30\" class=\"stats-title\">Activity Summary</text>" ++
    "<text x=\"15\" y=\"60\" class=\"stats-label\">Total Activities</text>" ++
    "<text x=\"150\" y=\"60\" class=\"stats-value\">" ++ natStr ov.totalActivities ++ "</text>" ++
    "<text x=\"15\" y=\"85\" class=\"stats-label\">Total Distance</text>" ++
    "<text x=\"150\" y=\"85\" class=\"stats-value\">" ++ fmtQ1 ov.totalDistance ++ "</text>" ++
    "<text x=\"185\" y=\"85\" class=\"stats-unit\">km</text>" ++
    "<text x=\"15\" y=\"110\" class=\"stats-label\">Total Duration</text>" ++
    "<text x=\"150\" y=\"110\" class=\"stats-value\">" ++ intStr ov.totalDuration ++ "</text>" ++
    "<text x=\"170\" y=\"110\" class=\"stats-unit\">hours</text>" ++
    "<text x=\"15\" y=\"135\" class=\"stats-label\">Active Days</text>" ++
    "<text x=\"150\" y=\"135\" class=\"stats-value\">" ++ natStr ov.activeDays ++ "</text>" ++
    "<text x=\"15\" y=\"160\" class=\"stats-label\">Longest Streak</text>" ++
    "<text x=\"150\" y=\"160\" class=\"stats-value\">" ++ natStr ov.longestStreak ++ "</text>" ++
    "<text x=\"170\" y=\"160\" class=\"stats-unit\">days</text>" ++
    "<text x=\"15\" y=\"185\" class=\"stats-label\">Personal Records</text>" ++
    "<text x=\"150\" y=\"185\" class=\"stats-value\">" ++ natStr ov.prCount ++ "</text>" ++
    "</svg>").data, ?_⟩
  simp only [generateStatsSVG, String.data_append, List.append_assoc]

theorem combine_decomp (a b : String) :
    ∃ t, (combineHeatmapAndStats a b).data =
      (svgHeader ((extractSVGDimensions a).1 + (extractSVGDimensions b).1 + 10)
        (max (extractSVGDimensions a).2 (extractSVGDimensions b).2)).data ++ t := by
  refine ⟨("<g transform=\"translate(0, 0)\">" ++ extractSVGContent a ++ "</g>" ++
    "<g transform=\"translate(" ++ intStr ((extractSVGDimensions a).1 + 10) ++ ", 0)\">" ++
    extractSVGContent b ++ "</g>" ++ "</svg>").data, ?_⟩
  simp only [combineHeatmapAndStats, String.data_append, List.append_assoc]

theorem extract_renderSVG (mapEnum : List (String × ℕ) → List (String × ℕ))
    (h : HeatmapData) (hc : 5 ≤ h.cellSize) :
    extractSVGDimensions (renderSVG mapEnum h) = (renderTotalWidth h, renderTotalHeight h) := by
  obtain ⟨t, ht⟩ := renderSVG_decomp mapEnum h
  exact extractSVGDimensions_header (renderTotalWidth_pos h hc) (renderTotalHeight_pos h hc)
    _ t ht

theorem extract_statsSVG (dm : Bool) (ov : ActivityStats) :
    extractSVGDimensions (generateStatsSVG dm ov) = (300, 200) := by
  obtain ⟨t, ht⟩ := statsSVG_decomp dm ov
  exact extractSVGDimensions_header (by decide) (by decide) _ t ht

theorem extract_combine (a b : String) {wa ha wb hb : ℤ}
    (hA : extractSVGDimensions a = (wa, ha)) (hB : extractSVGDimensions b = (wb, hb))
    (h1 : 0 < wa + wb + 10) (h2 : 0 < max ha hb) :
    extractSVGDimensions (combineHeatmapAndStats a b) = (wa + wb + 10, max ha hb) := by
  obtain ⟨t, ht⟩ := combine_decomp a b
  rw [hA, hB] at ht
  exact extractSVGDimensions_header h1 h2 _ t ht

theorem renderSVG_leads (mapEnum : List (String × ℕ) → List (String × ℕ))
    (h : HeatmapData) :
    leadsWith "<svg".data (renderSVG mapEnum h).data = true := by
  obtain ⟨t, ht⟩ := renderSVG_decomp mapEnum h
  exact leadsWith_svg_header _ t ht

theorem combine_leads (a b : String) :
    leadsWith "<svg".data (combineHeatmapAndStats a b).data = true := by
  obtain ⟨t, ht⟩ := combine_decomp a b
  exact leadsWith_svg_header _ t ht

/-- C8: with a resolvable date range, GenerateHeatmap with stats disabled
returns exactly the rendered heatmap, whose canvas dimensions are the
heatmap-only width and height; with stats enabled it returns the composite
document, whose canvas width is the heatmap width plus the 300px stats
panel width plus the fixed 10px margin and whose height is the maximum of
the heatmap height and the 200px stats panel height. -/
theorem C8_stats_composition (mapEnum : List (String × ℕ) → List (String × ℕ))
    (cfg : Config) (acts : List SummaryActivity) (tzdb : TzDb) (now startD endD : ℤ)
    (ordered : List DailyActivity) (hd : HeatmapData)
    (hdr : getDateRange cfg tzdb now = .ok (startD, endD))
    (hord : ordered = getOrderedDates (aggregate (getTimeZoneLocation cfg tzdb).1 acts)
      startD endD)
    (hhd : hd = buildHeatmapData ordered startD endD cfg.colorScheme cfg.customColors
      cfg.darkModeColors cfg.cellSize cfg.weekStart cfg.darkModeSupport cfg.metricType) :
    (cfg.showStats = false →
      generateHeatmapE mapEnum cfg acts tzdb now = .ok (renderSVG mapEnum hd) ∧
      extractSVGDimensions (renderSVG mapEnum hd) =
        (renderTotalWidth hd, renderTotalHeight hd)) ∧
    (cfg.showStats = true →
      generateHeatmapE mapEnum cfg acts tzdb now =
        .ok (combineHeatmapAndStats (renderSVG mapEnum hd)
          (generateStatsSVG cfg.darkModeSupport (overallStats ordered))) ∧
      extractSVGDimensions (combineHeatmapAndStats (renderSVG mapEnum hd)
        (generateStatsSVG cfg.darkModeSupport (overallStats ordered))) =
        (renderTotalWidth hd + 300 + 10, max (renderTotalHeight hd) 200)) := by
  have hcs : 5 ≤ hd.cellSize := by
    rw [hhd]
    exact buildHeatmapData_cellSize ordered startD endD cfg.colorScheme cfg.customColors
      cfg.darkModeColors cfg.cellSize cfg.weekStart cfg.darkModeSupport cfg.metricType
  have hdim := extract_renderSVG mapEnum hd hcs
  have hldA := renderSVG_leads mapEnum hd
  constructor
  · intro hss
    refine ⟨?_, hdim⟩
    simp [generateHeatmapE, hdr, ← hord, ← hhd, hss, hldA]
  · intro hss
    have hdimB := extract_statsSVG cfg.darkModeSupport (overallStats ordered)
    have hwpos := renderTotalWidth_pos hd hcs
    have hcomb := extract_combine (renderSVG mapEnum hd)
      (generateStatsSVG cfg.darkModeSupport (overallStats ordered)) hdim hdimB
      (by omega) (by omega)
    have hldC := combine_leads (renderSVG mapEnum hd)
      (generateStatsSVG cfg.darkModeSupport (overallStats ordered))
    refine ⟨?_, hcomb⟩
    simp [generateHeatmapE, hdr, ← hord, ← hhd, hss, hldC]

theorem C8_witness :
    getDateRange cfgBase tzdbUTC 0 = .ok (0, 1) ∧
    (generateHeatmapE id cfgBase [] tzdbUTC 0 =
        .ok (renderSVG id (buildHeatmapData
          (getOrderedDates (aggregate (getTimeZoneLocation cfgBase tzdbUTC).1 []) 0 1) 0 1
          cfgBase.colorScheme cfgBase.customColors cfgBase.darkModeColors cfgBase.cellSize
          cfgBase.weekStart cfgBase.darkModeSupport cfgBase.metricType)) ∧
      extractSVGDimensions (renderSVG id (buildHeatmapData
          (getOrderedDates (aggregate (getTimeZoneLocation cfgBase tzdbUTC).1 []) 0 1) 0 1
          cfgBase.colorScheme cfgBase.customColors cfgBase.darkModeColors cfgBase.cellSize
          cfgBase.weekStart cfgBase.darkModeSupport cfgBase.metricType)) =
        (renderTotalWidth (buildHeatmapData
          (getOrderedDates (aggregate (getTimeZoneLocation cfgBase tzdbUTC).1 []) 0 1) 0 1
          cfgBase.colorScheme cfgBase.customColors cfgBase.darkModeColors cfgBase.cellSize
          cfgBase.weekStart cfgBase.darkModeSupport cfgBase.metricType),
         renderTotalHeight (buildHeatmapData
          (getOrderedDates (aggregate (getTimeZoneLocation cfgBase tzdbUTC).1 []) 0 1) 0 1
          cfgBase.colorScheme cfgBase.customColors cfgBase.darkModeColors cfgBase.cellSize
          cfgBase.weekStart cfgBase.darkModeSupport cfgBase.metricType))) :=
  ⟨by rfl,
   (C8_stats_composition id cfgBase [] tzdbUTC 0 0 1 _ _ (by rfl) rfl rfl).1 rfl⟩

/-! ### C9: the pipeline is deterministic — the unspecified Go map
enumeration order inside writeMonthLabels never affects the output -/

theorem foldl_enumFrom_pairwise {α : Type}
    (f : List (String × ℕ) → ℕ × α → List (String × ℕ))
    (hf : ∀ acc n c, f acc (n, c) = acc ∨ ∃ k, f acc (n, c) = acc ++ [(k, n)])
    (l : List α) (n : ℕ) (acc : List (String × ℕ))
    (hacc : acc.Pairwise (fun a b => a.2 < b.2)) (hlt : ∀ p ∈ acc, p.2 < n) :
    ((List.enumFrom n l).foldl f acc).Pairwise (fun a b => a.2 < b.2) := by
  induction l generalizing n acc with
  | nil => exact hacc
  | cons c cs ih =>
    show ((List.enumFrom (n + 1) cs).foldl f (f acc (n, c))).Pairwise _
    rcases hf acc n c with he | ⟨k, he⟩
    · rw [he]
      exact ih (n + 1) acc hacc (fun p hp => Nat.lt_succ_of_lt (hlt p hp))
    · rw [he]
      apply ih (n + 1)
      · rw [List.pairwise_append]
        refine ⟨hacc, ?_, ?_⟩
        · simp
        · intro a ha b hb
          rw [List.mem_singleton] at hb
          subst hb
          exact hlt a ha
      · intro p hp
        rcases List.mem_append.mp hp with hpl | hpr
        · exact Nat.lt_succ_of_lt (hlt p hpl)
        · rw [List.mem_singleton] at hpr
          subst hpr
          exact Nat.lt_succ_self n

theorem monthYearStarts_pairwise (cells : List (List HeatmapCell)) :
    (monthYearStarts cells).Pairwise (fun a b => a.2 < b.2) := by
  unfold monthYearStarts
  show ((List.enumFrom 0 cells).foldl _ []).Pairwise _
  refine foldl_enumFrom_pairwise _ ?_ cells 0 [] List.Pairwise.nil (by simp)
  intro acc n c
  cases c with
  | nil => exact Or.inl rfl
  | cons c0 rest =>
    dsimp only
    split
    · exact Or.inl rfl
    · exact Or.inr ⟨_, rfl⟩

theorem sorted_of_perm_unique (L M N : List (String × ℕ))
    (hL : L.Pairwise (fun a b => a.2 < b.2))
    (hM : M.Perm L) (hN : N.Perm L)
    (hMs : M.Pairwise (fun a b => a.2 ≤ b.2))
    (hNs : N.Pairwise (fun a b => a.2 ≤ b.2)) :
    M = N := by
  haveI : IsAntisymm (String × ℕ) (fun a b => a.2 < b.2) :=
    ⟨fun a b h1 h2 => absurd (Nat.lt_trans h1 h2) (Nat.lt_irrefl _)⟩
  have hLd : L.Pairwise (fun a b => a.2 ≠ b.2) := hL.imp (fun h => Nat.ne_of_lt h)
  have key : ∀ K : List (String × ℕ), K.Perm L → K.Pairwise (fun a b => a.2 ≤ b.2) →
      K.Pairwise (fun a b => a.2 < b.2) := by
    intro K hK hKs
    have h1 : (K.map Prod.snd).Nodup := by
      rw [List.Perm.nodup_iff (hK.map Prod.snd)]
      exact List.pairwise_map.mpr hLd
    have h2 : K.Pairwise (fun a b => a.2 ≠ b.2) := List.pairwise_map.mp h1
    exact (hKs.and h2).imp (fun h => lt_of_le_of_ne h.1 h.2)
  exact List.eq_of_perm_of_sorted (hM.trans hN.symm) (key M hM hMs) (key N hN hNs)

theorem writeMonthLabels_enum_invariant
    (e1 e2 : List (String × ℕ) → List (String × ℕ))
    (h1 : ∀ l, (e1 l).Perm l) (h2 : ∀ l, (e2 l).Perm l)
    (cells : List (List HeatmapCell)) (cs sp : ℤ) :
    writeMonthLabels e1 cells cs sp = writeMonthLabels e2 cells cs sp := by
  haveI : IsTotal (String × ℕ) (fun a b => a.2 ≤ b.2) := ⟨fun a b => Nat.le_total a.2 b.2⟩
  haveI : IsTrans (String × ℕ) (fun a b => a.2 ≤ b.2) :=
    ⟨fun a b c u v => Nat.le_trans u v⟩
  have hsort : List.insertionSort (fun a b : String × ℕ => a.2 ≤ b.2)
      (e1 (monthYearStarts cells)) =
      List.insertionSort (fun a b : String × ℕ => a.2 ≤ b.2)
      (e2 (monthYearStarts cells)) := by
    apply sorted_of_perm_unique (monthYearStarts cells)
    · exact monthYearStarts_pairwise cells
    · exact (List.perm_insertionSort _ _).trans (h1 _)
    · exact (List.perm_insertionSort _ _).trans (h2 _)
    · exact List.sorted_insertionSort _ _
    · exact List.sorted_insertionSort _ _
  simp only [writeMonthLabels]
  rw [hsort]

/-- C9: the rendering pipeline is a pure function of its inputs — for any
two enumeration orders of the Go month-label map (each a permutation of
its entries), GenerateHeatmap produces byte-identical output, so two runs
on identical activities and configuration yield the same SVG markup. -/
theorem C9_pipeline_deterministic
    (e1 e2 : List (String × ℕ) → List (String × ℕ))
    (h1 : ∀ l, (e1 l).Perm l) (h2 : ∀ l, (e2 l).Perm l)
    (cfg : Config) (acts : List SummaryActivity) (tzdb : TzDb) (now : ℤ) :
    generateHeatmapE e1 cfg acts tzdb now = generateHeatmapE e2 cfg acts tzdb now := by
  have hr : ∀ hdta : HeatmapData, renderSVG e1 hdta = renderSVG e2 hdta := by
    intro hdta
    simp only [renderSVG]
    rw [writeMonthLabels_enum_invariant e1 e2 h1 h2]
  simp only [generateHeatmapE]
  cases hgr : getDateRange cfg tzdb now with
  | error e => rfl
  | ok p =>
    obtain ⟨s, ed⟩ := p
    simp only [hr]

theorem C9_witness :
    generateHeatmapE id cfgBase [sampleAct 1 3600 0 0] tzdbUTC 0 =
      generateHeatmapE List.reverse cfgBase [sampleAct 1 3600 0 0] tzdbUTC 0 :=
  C9_pipeline_deterministic id List.reverse (fun l => List.Perm.refl l)
    (fun l => l.reverse_perm) cfgBase [sampleAct 1 3600 0 0] tzdbUTC 0

end RunGraph
